import Mathlib

/-!
Verification of the Automatic Overtake maneuver controller.

This development embeds the runtime core of the controller (the maneuver
state machine in `Plugin.run`, the start-eligibility check, the lane
clearance evaluator, the speed-boost arbitrator and the indicator pulse
controller) as executable Lean functions, and proves the specified
properties about them.

Modelling conventions:
- Python floats are modelled as rationals (all arithmetic in the core is
  elementary: +, -, *, /, max, abs, comparisons).
- Wall-clock time (`time.time()`) is passed explicitly as a `now : ℚ`
  argument; within one tick the source reads the clock at most a few
  milliseconds apart, which the model collapses to the single tick time.
- The trigonometric heading decomposition `_orientation` (forward =
  (-sin θ, -cos θ), right = (cos θ, -sin θ)) is taken as part of the
  telemetry input: the `Api` record carries the forward/right unit
  vectors, and the dot-product projection arithmetic is modelled exactly.
- External side effects with no feedback into the state (log lines, UI
  text, tag publication, event-bus emissions) are not modelled; actuator
  writes to the controller's blinker attributes are modelled as state.
- Tag reads are modelled as already-coerced inputs in `RunInput`,
  mirroring the defensive coercions at the top of `Plugin.run`
  (non-numeric lead distance becomes `none`, a non-integer head of
  `vehicle_highlights` becomes `none`, non-dict status becomes `[]`).
-/

-- Rational arithmetic is sealed in the library; reopen it so that the
-- embedded controller evaluates on concrete inputs inside the kernel.
set_option allowUnsafeReducibility true in
attribute [semireducible] Rat.mul Rat.inv Rat.add Rat.sub Rat.ofScientific

namespace AutoOvertake

/-- Module-level constants of `main.py`. -/
def INDICATOR_PULSE_S : ℚ := 1/10

def INDICATOR_COOLDOWN_S : ℚ := 1

def LANE_TOLERANCE_FACTOR : ℚ := 3/4

def LANE_CHANGE_STALL_BUFFER_S : ℚ := 3

def CLEARING_TIMEOUT_S : ℚ := 30

def SPEED_EVENT_HOLD_S : ℚ := 1/4

/-- The `Side` literal type, `"left" | "right"`. -/
inductive Side where
  | left
  | right
deriving DecidableEq, Repr

/-- String rendering of a side, used in f-string reasons. -/
def sideStr : Side → String
  | Side.left => "left"
  | Side.right => "right"

/-- The `SpeedEvent` literal type, `"increment_speed" | "decrement_speed"`. -/
inductive SpeedEvent where
  | increment_speed
  | decrement_speed
deriving DecidableEq, Repr

/-- The `OvertakeState` enumeration. -/
inductive OvertakeState where
  | IDLE
  | MONITORING
  | REQUESTING_OUT
  | CHANGING_OUT
  | CLEARING
  | REQUESTING_RETURN
  | RETURNING
deriving DecidableEq, Repr

/-- The settings record of `settings.py` (`ETS2LASettings` subclass). -/
structure Settings where
  enabled : Bool
  preferred_side : String
  min_speed_kph : ℚ
  min_lead_distance_m : ℚ
  min_speed_delta_kph : ℚ
  hold_duration_s : ℚ
  lane_clear_front_m : ℚ
  lane_clear_rear_m : ℚ
  rear_time_gap_s : ℚ
  return_clearance_m : ℚ
  intersection_buffer_m : ℚ
  request_timeout_s : ℚ
  overtake_speed_boost_kph : ℚ
  lane_width_m : ℚ
  require_highway : Bool
deriving DecidableEq, Repr

/-- The default values declared in `settings.py`. -/
def defaultSettings : Settings where
  enabled := true
  preferred_side := "PassLeft"
  min_speed_kph := 45
  min_lead_distance_m := 40
  min_speed_delta_kph := 12
  hold_duration_s := 2
  lane_clear_front_m := 55
  lane_clear_rear_m := 20
  rear_time_gap_s := 5/2
  return_clearance_m := 30
  intersection_buffer_m := 150
  request_timeout_s := 6
  overtake_speed_boost_kph := 15
  lane_width_m := 37/10
  require_highway := true

/-- A traffic vehicle (`Modules.Traffic.classes.Vehicle`), flattened to the
fields the core reads: `id`, `position.x`, `position.z`, `is_tmp`,
`is_trailer`. -/
structure Vehicle where
  id : ℤ
  posX : ℚ
  posZ : ℚ
  is_tmp : Bool
  is_trailer : Bool
deriving DecidableEq, Repr

/-- Telemetry snapshot: the fields of the `api` dict the core reads, plus
the forward/right unit vectors that `_orientation(api)` derives from
`truckPlacement.rotationX` (the trigonometric decomposition is taken as
an input; the dot-product projection is modelled exactly). -/
structure Api where
  coordinateX : ℚ
  coordinateZ : ℚ
  speed : ℚ
  speedLimit : ℚ
  forwardX : ℚ
  forwardZ : ℚ
  rightX : ℚ
  rightZ : ℚ
deriving DecidableEq, Repr

/-- The mutable runtime state owned by the plugin
(`_initialize_runtime_state`), together with the two controller blinker
attributes the indicator pulse controller writes. -/
structure PluginState where
  _state : OvertakeState
  _state_since : ℚ
  _state_reason : String
  _last_logged_state : Option (OvertakeState × String)
  _pass_side : Side
  _requested_side : Option Side
  _original_side : Side
  _lead_vehicle_id : Option ℤ
  _lead_last_seen : ℚ
  _overtaken_vehicle_id : Option ℤ
  _pending_indicator_attr : Option String
  _pending_indicator_release : ℚ
  _last_indicator_side : Option Side
  _last_indicator_time : ℚ
  _observed_execution : Bool
  _last_lane_status : String
  _forward_vector : Option (ℚ × ℚ)
  _right_vector : Option (ℚ × ℚ)
  _speed_boost_applied : ℤ
  _speed_boost_target : ℤ
  _active_speed_event : Option SpeedEvent
  _active_speed_event_started : ℚ
  controller_lblinker : Bool
  controller_rblinker : Bool
deriving DecidableEq, Repr

/-- The state produced by `init` at time `now`: `_initialize_runtime_state`
followed by `_set_phase(OvertakeState.IDLE, "Initialized")`. -/
def initState (now : ℚ) : PluginState where
  _state := OvertakeState.IDLE
  _state_since := now
  _state_reason := "Initialized"
  _last_logged_state := some (OvertakeState.IDLE, "Initialized")
  _pass_side := Side.left
  _requested_side := none
  _original_side := Side.right
  _lead_vehicle_id := none
  _lead_last_seen := 0
  _overtaken_vehicle_id := none
  _pending_indicator_attr := none
  _pending_indicator_release := 0
  _last_indicator_side := none
  _last_indicator_time := 0
  _observed_execution := false
  _last_lane_status := "idle"
  _forward_vector := none
  _right_vector := none
  _speed_boost_applied := 0
  _speed_boost_target := 0
  _active_speed_event := none
  _active_speed_event_started := 0
  controller_lblinker := false
  controller_rblinker := false

/-- Truncation toward zero, as Python `int()` on a float. -/
def intTrunc (q : ℚ) : ℤ :=
  if 0 ≤ q then ⌊q⌋ else ⌈q⌉

/-- `Plugin._refresh_side_preferences`. -/
def refreshSidePreferences (set : Settings) (s : PluginState) : PluginState :=
  { s with _pass_side :=
      if set.preferred_side = "PassLeft" then Side.left else Side.right }

/-- `Plugin._get_opposite_side`. -/
def getOppositeSide : Side → Side
  | Side.left => Side.right
  | Side.right => Side.left

/-- `Plugin._set_phase`: no-op when both the phase and the reason are
unchanged; otherwise records the new phase, its entry time and reason,
and refreshes the log-deduplication pair. -/
def setPhase (now : ℚ) (newState : OvertakeState) (reason : String)
    (s : PluginState) : PluginState :=
  if s._state = newState ∧ s._state_reason = reason then s
  else
    let s1 := { s with
      _state := newState
      _state_since := now
      _state_reason := reason }
    if s1._last_logged_state ≠ some (newState, reason) then
      { s1 with _last_logged_state := some (newState, reason) }
    else s1

/-- `Plugin._set_reason`. -/
def setReason (reason : String) (s : PluginState) : PluginState :=
  if s._state_reason = reason then s
  else { s with _state_reason := reason }

/-- `Plugin._check_start_conditions`: the ordered, short-circuiting
start-eligibility check.  The `lead_distance is None or lead_distance <= 0`
disjunction is rendered as a match on the option followed by the
non-positivity test; the `isinstance(next_intersection_distance, (int, float))`
guard is rendered as the option being `some`. -/
def checkStartConditions (set : Settings) (speed speed_limit : ℚ)
    (lead_distance : Option ℚ) (lane_status road_type : String)
    (next_intersection_distance : Option ℚ) : Bool × String :=
  if lane_status ≠ "idle" then
    (false, "Lane change already active")
  else
    match lead_distance with
    | none => (false, "No vehicle in front")
    | some lead =>
      if lead ≤ 0 then
        (false, "No vehicle in front")
      else if lead > set.min_lead_distance_m then
        (false, "Lead vehicle too far")
      else if speed < set.min_speed_kph then
        (false, "Speed below threshold")
      else if speed_limit > 0 ∧ speed_limit - speed < set.min_speed_delta_kph then
        (false, "Speed delta too small")
      else if set.require_highway ∧ road_type ≠ "highway" then
        (false, "Road not marked as highway")
      else
        match next_intersection_distance with
        | some d =>
          if d > 0 ∧ d < set.intersection_buffer_m then
            (false, "Intersection too close")
          else (true, "Eligible")
        | none => (true, "Eligible")

/-- The start conditions as an ordered list of (failing-condition, reason)
pairs, written from the specification's description of the check. -/
def startConditionList (set : Settings) (speed speed_limit : ℚ)
    (lead_distance : Option ℚ) (lane_status road_type : String)
    (next_intersection_distance : Option ℚ) : List (Bool × String) :=
  [ (decide (lane_status ≠ "idle"), "Lane change already active"),
    ((match lead_distance with
      | none => true
      | some d => decide (d ≤ 0)), "No vehicle in front"),
    ((match lead_distance with
      | none => false
      | some d => decide (d > set.min_lead_distance_m)), "Lead vehicle too far"),
    (decide (speed < set.min_speed_kph), "Speed below threshold"),
    (decide (speed_limit > 0) &&
      decide (speed_limit - speed < set.min_speed_delta_kph),
      "Speed delta too small"),
    (set.require_highway && decide (road_type ≠ "highway"),
      "Road not marked as highway"),
    ((match next_intersection_distance with
      | none => false
      | some d => decide (d > 0) && decide (d < set.intersection_buffer_m)),
      "Intersection too close") ]

/-- First failing condition of an ordered condition list; when none fails,
the check reports eligible. -/
def firstFailing : List (Bool × String) → Bool × String
  | [] => (true, "Eligible")
  | (c, r) :: rest => if c then (false, r) else firstFailing rest

/-- `Plugin._dependencies_ready`: the status tag (a dict, modelled as an
association list from key to the truthiness of its value) must be
non-empty and carry truthy `Map` and `AdaptiveCruiseControl` entries. -/
def dependenciesReady (status : List (String × Bool)) : Bool :=
  if status.isEmpty then false
  else if ((status.lookup "Map").getD false) = false then false
  else if ((status.lookup "AdaptiveCruiseControl").getD false) = false then false
  else true

/-- `Plugin._project`: world point to (longitudinal, lateral) in the ego
frame, using the cached orientation vectors when both are set (a Python
2-tuple is always truthy, `None` is falsy, so the cache is used exactly
when both fields are not `None`), else the telemetry orientation. -/
def project (s : PluginState) (api : Api) (x z : ℚ) : ℚ × ℚ :=
  let fr : (ℚ × ℚ) × (ℚ × ℚ) :=
    match s._forward_vector, s._right_vector with
    | some f, some r => (f, r)
    | _, _ => ((api.forwardX, api.forwardZ), (api.rightX, api.rightZ))
  let forward := fr.1
  let right := fr.2
  let dx := x - api.coordinateX
  let dz := z - api.coordinateZ
  (dx * forward.1 + dz * forward.2, dx * right.1 + dz * right.2)

/-- `Plugin._calculate_safe_rear_clearance`. -/
def calculateSafeRearClearance (set : Settings) (speed_kph : ℚ) : ℚ :=
  let speed_ms := speed_kph / (36/10)
  let dynamic_clearance := speed_ms * set.rear_time_gap_s
  max set.lane_clear_rear_m dynamic_clearance

/-- Loop body of `Plugin._lane_is_clear`: a vehicle is skipped (does not
occupy the lane) when it is a temporary entity or trailer, outside the
longitudinal window, or laterally outside the lane tolerance band. -/
def vehicleSkipped (s : PluginState) (api : Api) (lane_center tolerance
    front_clearance rear_clearance : ℚ) (v : Vehicle) : Bool :=
  v.is_tmp || v.is_trailer ||
    (let p := project s api v.posX v.posZ
     decide (p.1 > front_clearance) || decide (p.1 < -rear_clearance) ||
       decide (|p.2 - lane_center| > tolerance))

/-- `Plugin._lane_is_clear`. -/
def laneIsClear (set : Settings) (s : PluginState) (side : Side) (api : Api)
    (traffic : List Vehicle) (front_clearance rear_clearance : ℚ)
    (use_dynamic_rear : Bool) : Bool :=
  if traffic.isEmpty then true
  else
    let rear :=
      if use_dynamic_rear then
        calculateSafeRearClearance set (api.speed * (36/10))
      else rear_clearance
    let lane_center :=
      if side = Side.right then set.lane_width_m else -set.lane_width_m
    let tolerance := set.lane_width_m * LANE_TOLERANCE_FACTOR
    traffic.all (vehicleSkipped s api lane_center tolerance front_clearance rear)

/-- `Plugin._is_overtaken_vehicle_clear`. -/
def isOvertakenVehicleClear (s : PluginState) (api : Api)
    (traffic : List Vehicle) (min_rear_distance : ℚ) : Bool :=
  match s._overtaken_vehicle_id with
  | none => true
  | some vid =>
    match traffic.find? (fun v => v.id = vid) with
    | none => true
    | some v =>
      let p := project s api v.posX v.posZ
      decide (p.1 < 0) && decide (|p.1| > min_rear_distance)

/-- `Plugin._apply_speed_boost`: raises the boost target to the configured
amount; no-op when the amount is non-positive or does not exceed the
current target. -/
def applySpeedBoost (set : Settings) (s : PluginState) : PluginState :=
  let boost_amount := intTrunc set.overtake_speed_boost_kph
  if boost_amount ≤ 0 then s
  else if s._speed_boost_target ≥ boost_amount then s
  else { s with _speed_boost_target := boost_amount }

/-- `Plugin._remove_speed_boost`: schedules removal by zeroing the target
(no-op when both target and applied are already zero). -/
def removeSpeedBoost (s : PluginState) : PluginState :=
  if s._speed_boost_target = 0 ∧ s._speed_boost_applied = 0 then s
  else { s with _speed_boost_target := 0 }

/-- `Plugin._finish_speed_adjustment`: releases the active speed pulse;
unless cancelled, a completed increment pulse adds one unit to the
applied amount and a completed decrement pulse removes one (clamped at
zero, as `max(0, applied - 1)`). -/
def finishSpeedAdjustment (s : PluginState) (cancel : Bool) : PluginState :=
  match s._active_speed_event with
  | none => s
  | some e =>
    let s1 :=
      if cancel then s
      else if e = SpeedEvent.increment_speed then
        { s with _speed_boost_applied := s._speed_boost_applied + 1 }
      else
        { s with _speed_boost_applied := max 0 (s._speed_boost_applied - 1) }
    { s1 with _active_speed_event := none, _active_speed_event_started := 0 }

/-- Tail of the `_update_speed_adjustments` loop once no pulse is active:
if there is a pending delta, emit a new pulse-start in its direction and
record its start time, then return. -/
def startPulseIfPending (now : ℚ) (s : PluginState) : PluginState :=
  let pending := s._speed_boost_target - s._speed_boost_applied
  if pending = 0 then s
  else
    let e := if pending > 0 then SpeedEvent.increment_speed
             else SpeedEvent.decrement_speed
    { s with _active_speed_event := some e,
             _active_speed_event_started := now }

/-- `Plugin._update_speed_adjustments`.  The source's `while True` loop is
unrolled: in one call it performs at most one cancellation or one
completion of the active pulse (a completion is possible only after the
hold duration), after which the loop either returns (pulse still
holding) or falls through to starting at most one new pulse, which
returns immediately.  The loop therefore never completes two pulses in
one call, and this unrolling is exact. -/
def updateSpeedAdjustments (now : ℚ) (s : PluginState) : PluginState :=
  match s._active_speed_event with
  | some e =>
    let event_direction : ℤ := if e = SpeedEvent.increment_speed then 1 else -1
    let pending := s._speed_boost_target - s._speed_boost_applied
    let desired_direction : ℤ :=
      if pending > 0 then 1 else if pending < 0 then -1 else 0
    if desired_direction = 0 ∨ desired_direction ≠ event_direction then
      startPulseIfPending now (finishSpeedAdjustment s true)
    else if now - s._active_speed_event_started < SPEED_EVENT_HOLD_S then s
    else startPulseIfPending now (finishSpeedAdjustment s false)
  | none => startPulseIfPending now s

/-- Attribute write `setattr(self.controller, attr, value)` for the two
blinker attributes. -/
def setControllerAttr (attr : String) (value : Bool) (s : PluginState) :
    PluginState :=
  if attr = "lblinker" then { s with controller_lblinker := value }
  else if attr = "rblinker" then { s with controller_rblinker := value }
  else s

/-- `Plugin._update_indicator_pulse`: releases a held indicator once its
scheduled release time has passed. -/
def updateIndicatorPulse (now : ℚ) (s : PluginState) : PluginState :=
  match s._pending_indicator_attr with
  | some attr =>
    if now ≥ s._pending_indicator_release then
      let s1 := setControllerAttr attr false s
      { s1 with _pending_indicator_attr := none,
                _pending_indicator_release := 0 }
    else s
  | none => s

/-- `Plugin._trigger_indicator`: forces the opposite indicator off and the
requested one on, schedules its release one pulse width later, and
records side and time for the cooldown. -/
def triggerIndicator (now : ℚ) (side : Side) (s : PluginState) : PluginState :=
  let attr := if side = Side.left then "lblinker" else "rblinker"
  let opposite := if side = Side.left then "rblinker" else "lblinker"
  let s1 := setControllerAttr attr true (setControllerAttr opposite false s)
  { s1 with
      _pending_indicator_attr := some attr
      _pending_indicator_release := now + INDICATOR_PULSE_S
      _last_indicator_side := some side
      _last_indicator_time := now }

/-- `Plugin._request_lane_change`: debounced indicator request; no-op when
the same side was last triggered within the cooldown window. -/
def requestLaneChange (now : ℚ) (side : Side) (s : PluginState) : PluginState :=
  if s._last_indicator_side = some side ∧
      now - s._last_indicator_time < INDICATOR_COOLDOWN_S then s
  else triggerIndicator now side s

/-- `Plugin._reset_state`: the uniform full reset. -/
def resetState (now : ℚ) (reason : String) (s : PluginState) : PluginState :=
  let s1 := setPhase now OvertakeState.IDLE reason s
  let s2 := { s1 with
    _requested_side := none
    _lead_vehicle_id := none
    _overtaken_vehicle_id := none
    _lead_last_seen := 0
    _observed_execution := false }
  updateSpeedAdjustments now (removeSpeedBoost s2)

/-- `Plugin.on_takeover`: an external takeover resets the machine unless it
is already idle. -/
def onTakeover (now : ℚ) (s : PluginState) : PluginState :=
  if s._state ≠ OvertakeState.IDLE then resetState now "Driver takeover" s
  else s

/-- The external inputs of one `Plugin.run` tick, after the defensive tag
coercions at the top of `run`: a non-numeric lead distance is `none`, the
head of `vehicle_highlights` is `none` unless the tag is a non-empty list
with an integer head, a non-dict `status` tag is `[]`, a non-dict
telemetry result is `none`, and a non-list traffic result is `[]`. -/
structure RunInput where
  now : ℚ
  status_tag : List (String × Bool)
  lane_status : String
  road_type : String
  next_intersection_distance : Option ℚ
  lead_distance : Option ℚ
  vehicle_highlights : Option ℤ
  api : Option Api
  traffic : List Vehicle
deriving DecidableEq, Repr

/-- Character-list version of string startswith, used so that concrete
states reduce inside the kernel. -/
def charsStartWith : List Char → List Char → Bool
  | _, [] => true
  | [], _ :: _ => false
  | c :: cs, d :: ds => c == d && charsStartWith cs ds

/-- Python `str.startswith`, on the underlying character lists. -/
def strStartsWith (s p : String) : Bool :=
  charsStartWith s.data p.data

/-- The phase dispatch of `Plugin.run` (the `if self._state == ...` chain),
executed on the state reached after the per-tick updates, telemetry
processing, lead-continuity guard and eligibility evaluation. -/
def phaseStep (set : Settings) (now : ℚ) (lane_status : String) (api : Api)
    (traffic : List Vehicle) (eligible : Bool) (reason : String)
    (s : PluginState) : PluginState :=
  match s._state with
  | OvertakeState.IDLE =>
    if eligible then
      setPhase now OvertakeState.MONITORING "Monitoring conditions" s
    else setReason reason s
  | OvertakeState.MONITORING =>
    if eligible = false then resetState now reason s
    else if now - s._state_since ≥ set.hold_duration_s then
      let lane_clear := laneIsClear set s s._pass_side api traffic
        set.lane_clear_front_m set.lane_clear_rear_m true
      if lane_clear then
        let s1 := { s with
          _overtaken_vehicle_id := s._lead_vehicle_id
          _original_side := getOppositeSide s._pass_side }
        let s2 := updateSpeedAdjustments now (applySpeedBoost set s1)
        let s3 := { s2 with _requested_side := some s2._pass_side }
        let s4 := requestLaneChange now s3._pass_side s3
        let s5 := { s4 with _observed_execution := false }
        setPhase now OvertakeState.REQUESTING_OUT
          ("Requesting lane change to " ++ sideStr s5._pass_side) s5
      else resetState now "Target lane occupied" s
    else setReason "Verifying stability" s
  | OvertakeState.REQUESTING_OUT =>
    if strStartsWith lane_status "executing" then
      setPhase now OvertakeState.CHANGING_OUT "Lane change started"
        { s with _observed_execution := true }
    else if now - s._state_since > set.request_timeout_s then
      resetState now "Lane change did not start" s
    else
      requestLaneChange now s._pass_side
        (setReason "Awaiting lane change start" s)
  | OvertakeState.CHANGING_OUT =>
    if strStartsWith lane_status "executing" then
      setReason ("Executing lane change (" ++ lane_status ++ ")")
        { s with _observed_execution := true }
    else if lane_status = "idle" then
      if s._observed_execution then
        setPhase now OvertakeState.CLEARING
          "Waiting for overtaken vehicle clearance" s
      else resetState now "Lane change cancelled" s
    else if now - s._state_since >
        set.request_timeout_s + LANE_CHANGE_STALL_BUFFER_S then
      resetState now "Lane change stalled" s
    else setReason "Waiting for lane change to finish" s
  | OvertakeState.CLEARING =>
    let is_clear := isOvertakenVehicleClear s api traffic
      set.return_clearance_m
    let s1 :=
      if is_clear then
        let return_lane_clear := laneIsClear set s s._original_side api
          traffic set.lane_clear_front_m set.lane_clear_rear_m true
        if return_lane_clear then
          let sa := { s with _requested_side := some s._original_side }
          let sb := requestLaneChange now sa._original_side sa
          let sc := { sb with _observed_execution := false }
          setPhase now OvertakeState.REQUESTING_RETURN
            ("Requesting return to " ++ sideStr sc._original_side) sc
        else setReason "Waiting for original lane to clear" s
      else setReason "Waiting for overtaken vehicle to clear" s
    if now - s1._state_since > CLEARING_TIMEOUT_S then
      resetState now "Return timeout" s1
    else s1
  | OvertakeState.REQUESTING_RETURN =>
    if strStartsWith lane_status "executing" then
      setPhase now OvertakeState.RETURNING "Returning to original lane"
        { s with _observed_execution := true }
    else if now - s._state_since > set.request_timeout_s then
      resetState now "Return request timeout" s
    else
      requestLaneChange now s._original_side
        (setReason "Awaiting return lane change start" s)
  | OvertakeState.RETURNING =>
    if strStartsWith lane_status "executing" then
      setReason ("Executing return (" ++ lane_status ++ ")")
        { s with _observed_execution := true }
    else if lane_status = "idle" then
      if s._observed_execution then
        resetState now "Overtake complete" (removeSpeedBoost s)
      else resetState now "Return cancelled" s
    else if now - s._state_since >
        set.request_timeout_s + LANE_CHANGE_STALL_BUFFER_S then
      resetState now "Return stalled" s
    else setReason "Waiting for return to finish" s

/-- The three per-tick updates at the top of `Plugin.run`: side-preference
refresh, indicator pulse release, speed adjustment convergence. -/
def runUpdates (set : Settings) (now : ℚ) (s : PluginState) : PluginState :=
  updateSpeedAdjustments now
    (updateIndicatorPulse now (refreshSidePreferences set s))

/-- Caching of the orientation vectors computed by `_orientation(api)` on
the current tick. -/
def withVectors (api : Api) (s : PluginState) : PluginState :=
  { s with
    _forward_vector := some (api.forwardX, api.forwardZ)
    _right_vector := some (api.rightX, api.rightZ) }

/-- Ego speed in km/h as computed in `run` (`truckFloat.speed * 3.6`). -/
def speedKph (api : Api) : ℚ :=
  api.speed * (36/10)

/-- The speed limit in km/h used by `run`: when the telemetry limit is
zero, it is replaced by the ego speed plus the configured minimum delta. -/
def effectiveSpeedLimit (set : Settings) (api : Api) : ℚ :=
  let speed_limit := api.speedLimit * (36/10)
  if speed_limit = 0 then speedKph api + set.min_speed_delta_kph
  else speed_limit

/-- Lead-vehicle tracking update in `run`: when the `vehicle_highlights`
tag delivers an integer head, it becomes the tracked lead id. -/
def leadUpdate (now : ℚ) (vh : Option ℤ) (s : PluginState) : PluginState :=
  match vh with
  | some vid => { s with _lead_vehicle_id := some vid, _lead_last_seen := now }
  | none => s

/-- `Plugin.run`: one tick of the maneuver controller.  Status/tag
publication (`_publish_tags`) has no effect on the runtime state and is
not modelled; everything else is translated step by step. -/
def run (set : Settings) (inp : RunInput) (s0 : PluginState) : PluginState :=
  let now := inp.now
  let s1 := runUpdates set now s0
  if set.enabled = false then
    { resetState now "Disabled" s1 with _last_lane_status := "idle" }
  else if dependenciesReady inp.status_tag = false then
    let s2 :=
      if s1._state ≠ OvertakeState.IDLE then
        resetState now "Waiting for Map/ACC" s1
      else setReason "Waiting for Map/ACC" s1
    { s2 with _last_lane_status := inp.lane_status }
  else
    match inp.api with
    | none =>
      { resetState now "Telemetry unavailable" s1 with
          _last_lane_status := inp.lane_status }
    | some api =>
      let s2 := withVectors api s1
      let previous_lead := s2._lead_vehicle_id
      let s3 := leadUpdate now inp.vehicle_highlights s2
      if s3._lead_vehicle_id ≠ none ∧ s3._lead_vehicle_id ≠ previous_lead ∧
          (s3._state = OvertakeState.MONITORING ∨
            s3._state = OvertakeState.REQUESTING_OUT) then
        { resetState now "Lead vehicle changed" s3 with
            _last_lane_status := inp.lane_status }
      else
        let er := checkStartConditions set (speedKph api)
          (effectiveSpeedLimit set api) inp.lead_distance inp.lane_status
          inp.road_type inp.next_intersection_distance
        let s4 := phaseStep set now inp.lane_status api inp.traffic
          er.1 er.2 s3
        { s4 with _last_lane_status := inp.lane_status }

/-- The states reachable by the controller: the initialized state, closed
under run ticks (with arbitrary inputs) and takeover notifications, for a
fixed settings snapshot. -/
inductive Reach (set : Settings) : PluginState → Prop where
  | init : ∀ t0, Reach set (initState t0)
  | step : ∀ {s : PluginState} (inp : RunInput), Reach set s →
      Reach set (run set inp s)
  | takeover : ∀ {s : PluginState} (now : ℚ), Reach set s →
      Reach set (onTakeover now s)

-- Concrete inputs and states used to evaluate the controller on the
-- scenarios appearing in the theorems below.

/-- Telemetry with the truck at the origin heading along the negative z
axis (heading 0: forward = (0, -1), right = (1, 0)), driving 20 m/s
(72 km/h) with a 25 m/s (90 km/h) speed limit. -/
def apiA : Api where
  coordinateX := 0
  coordinateZ := 0
  speed := 20
  speedLimit := 25
  forwardX := 0
  forwardZ := -1
  rightX := 1
  rightZ := 0

/-- A status tag with both dependencies ready. -/
def okStatus : List (String × Bool) :=
  [("Map", true), ("AdaptiveCruiseControl", true)]

/-- Tick input at time 0: favorable start conditions, lead id 7 delivered
through vehicle highlights, empty traffic. -/
def tickInp1 : RunInput where
  now := 0
  status_tag := okStatus
  lane_status := "idle"
  road_type := "highway"
  next_intersection_distance := none
  lead_distance := some 25
  vehicle_highlights := some 7
  api := some apiA
  traffic := []

/-- Tick input at time 2 (hold duration elapsed), no new highlight. -/
def tickInp2 : RunInput := { tickInp1 with now := 2, vehicle_highlights := none }

/-- Tick input at time 2.3 (speed pulse hold elapsed), no new highlight. -/
def tickInp3 : RunInput :=
  { tickInp1 with now := 23/10, vehicle_highlights := none }

/-- Tick input at time 2.5 delivering a different lead id 8. -/
def tickInp4 : RunInput := { tickInp1 with now := 5/2, vehicle_highlights := some 8 }

/-- The reachable state after ticks 1 and 2: the controller has captured
lead 7 as the overtaken vehicle and entered RequestingOut. -/
def reachState2 : PluginState :=
  run defaultSettings tickInp2 (run defaultSettings tickInp1 (initState 0))

/-- The reachable state after ticks 1 to 4: one speed pulse completed
(applied = 1), then the lead change at tick 4 reset the machine and
zeroed the boost target. -/
def reachState4 : PluginState :=
  run defaultSettings tickInp4 (run defaultSettings tickInp3 reachState2)

/-- A runtime state sitting in the Clearing phase since time 0, tracking
overtaken vehicle 7, with the original side right. -/
def clearingState : PluginState := { initState 0 with
  _state := OvertakeState.CLEARING
  _state_since := 0
  _overtaken_vehicle_id := some 7
  _lead_vehicle_id := some 7 }

/-- Tick input at time 31 (31 s after Clearing entry) with empty traffic:
the overtaken vehicle is no longer tracked in traffic and the original
lane is clear. -/
def tickInpClear : RunInput where
  now := 31
  status_tag := okStatus
  lane_status := "idle"
  road_type := "highway"
  next_intersection_distance := none
  lead_distance := some 25
  vehicle_highlights := none
  api := some apiA
  traffic := []

/-- The overtaken vehicle 7 still only 10 m behind the ego truck
(projected longitudinal -10, within the 30 m return clearance). -/
def vehBehind : Vehicle where
  id := 7
  posX := 0
  posZ := 10
  is_tmp := false
  is_trailer := false

/-- A vehicle 80 m ahead in the left lane (projected longitudinal 80,
lateral -3.7). -/
def vehFarAhead : Vehicle where
  id := 1
  posX := -37/10
  posZ := -80
  is_tmp := false
  is_trailer := false

/-- A boost state with ten units applied toward a target of fifteen. -/
def boostMidState : PluginState := { initState 0 with
  _speed_boost_applied := 10
  _speed_boost_target := 15 }

/-- Settings requesting a boost amount of five, lower than the ten units
already applied in `boostMidState`. -/
def lowBoostSettings : Settings :=
  { defaultSettings with overtake_speed_boost_kph := 5 }

/-- Indicator states of three successive same-side requests at times 0,
0.5 and 1.2: the first actuates, the second is debounced. -/
def reqA : PluginState := requestLaneChange 0 Side.left (initState 0)

/-- Second request, 0.5 s after the first actuation: debounced. -/
def reqB : PluginState := requestLaneChange (1/2) Side.left reqA

/-- Third request, 0.7 s after the second request but 1.2 s after the
last actuation. -/
def reqC : PluginState := requestLaneChange (6/5) Side.left reqB

/-- A runtime state in Monitoring since time 0, tracking lead vehicle 7. -/
def monState : PluginState := { initState 0 with
  _state := OvertakeState.MONITORING
  _state_since := 0
  _lead_vehicle_id := some 7 }

/-- A runtime state in Monitoring since time 0 with no tracked lead id. -/
def monNoLeadState : PluginState := { initState 0 with
  _state := OvertakeState.MONITORING
  _state_since := 0 }

/-- The Clearing-timeout tick input with the overtaken vehicle still close
behind, so the sub-condition fails on the timeout tick. -/
def tickInpClearBlocked : RunInput := { tickInpClear with traffic := [vehBehind] }

/-- Invariant of claim C5 (amended): the overtaken-vehicle id is null
whenever the machine is in Idle or Monitoring (equivalently, it can be
non-null only from RequestingOut onward). -/
def overtakenOnlyActive (s : PluginState) : Prop :=
  s._state = OvertakeState.IDLE ∨ s._state = OvertakeState.MONITORING →
    s._overtaken_vehicle_id = none

/-- Invariant of claim C6 (amended): the applied boost is within
[0, trunc(configured boost)], the target likewise, and applied exceeds
the target only when the target is zero (downward convergence after
removal). -/
def boostInv (set : Settings) (s : PluginState) : Prop :=
  0 ≤ s._speed_boost_applied ∧
  s._speed_boost_applied ≤ max 0 (intTrunc set.overtake_speed_boost_kph) ∧
  0 ≤ s._speed_boost_target ∧
  s._speed_boost_target ≤ max 0 (intTrunc set.overtake_speed_boost_kph) ∧
  (s._speed_boost_applied ≤ s._speed_boost_target ∨
    s._speed_boost_target = 0)

-- ===================================================================
-- Theorems
-- ===================================================================

-- Shape lemmas: each state operation is a record update of the fields it
-- owns, leaving every other field untouched.

theorem refreshSidePreferences_shape (set : Settings) (s : PluginState) :
    ∃ p, refreshSidePreferences set s = { s with _pass_side := p } :=
  ⟨_, rfl⟩

theorem updateIndicatorPulse_shape (now : ℚ) (s : PluginState) :
    ∃ pa pr lb rb, updateIndicatorPulse now s = { s with
      _pending_indicator_attr := pa
      _pending_indicator_release := pr
      controller_lblinker := lb
      controller_rblinker := rb } := by
  unfold updateIndicatorPulse setControllerAttr
  dsimp only
  repeat' split
  all_goals exact ⟨_, _, _, _, rfl⟩

theorem startPulseIfPending_shape (now : ℚ) (s : PluginState) :
    ∃ e t, startPulseIfPending now s = { s with
      _active_speed_event := e
      _active_speed_event_started := t } := by
  unfold startPulseIfPending
  dsimp only
  repeat' split
  all_goals exact ⟨_, _, rfl⟩

theorem finishSpeedAdjustment_shape (s : PluginState) (cancel : Bool) :
    ∃ a e t, finishSpeedAdjustment s cancel = { s with
      _speed_boost_applied := a
      _active_speed_event := e
      _active_speed_event_started := t } := by
  unfold finishSpeedAdjustment
  dsimp only
  repeat' split
  all_goals exact ⟨_, _, _, rfl⟩

theorem startPulse_finish_shape (now : ℚ) (s : PluginState) (c : Bool) :
    ∃ a e t, startPulseIfPending now (finishSpeedAdjustment s c) = { s with
      _speed_boost_applied := a
      _active_speed_event := e
      _active_speed_event_started := t } := by
  obtain ⟨a1, e1, t1, h1⟩ := finishSpeedAdjustment_shape s c
  obtain ⟨e2, t2, h2⟩ := startPulseIfPending_shape now
    { s with _speed_boost_applied := a1, _active_speed_event := e1,
             _active_speed_event_started := t1 }
  refine ⟨a1, e2, t2, ?_⟩
  rw [h1, h2]

theorem updateSpeedAdjustments_shape (now : ℚ) (s : PluginState) :
    ∃ a e t, updateSpeedAdjustments now s = { s with
      _speed_boost_applied := a
      _active_speed_event := e
      _active_speed_event_started := t } := by
  unfold updateSpeedAdjustments
  dsimp only
  repeat' split
  all_goals first
    | exact startPulse_finish_shape now s true
    | exact startPulse_finish_shape now s false
    | exact ⟨s._speed_boost_applied, s._active_speed_event,
        s._active_speed_event_started, rfl⟩
    | (obtain ⟨e, t, h⟩ := startPulseIfPending_shape now s
       exact ⟨s._speed_boost_applied, e, t, h⟩)

theorem runUpdates_shape (set : Settings) (now : ℚ) (s : PluginState) :
    ∃ p pa pr lb rb a e t, runUpdates set now s = { s with
      _pass_side := p
      _pending_indicator_attr := pa
      _pending_indicator_release := pr
      controller_lblinker := lb
      controller_rblinker := rb
      _speed_boost_applied := a
      _active_speed_event := e
      _active_speed_event_started := t } := by
  unfold runUpdates
  obtain ⟨p, h1⟩ := refreshSidePreferences_shape set s
  rw [h1]
  obtain ⟨pa, pr, lb, rb, h2⟩ := updateIndicatorPulse_shape now
    { s with _pass_side := p }
  rw [h2]
  obtain ⟨a, e, t, h3⟩ := updateSpeedAdjustments_shape now
    { s with _pass_side := p, _pending_indicator_attr := pa,
             _pending_indicator_release := pr, controller_lblinker := lb,
             controller_rblinker := rb }
  rw [h3]
  exact ⟨_, _, _, _, _, _, _, _, rfl⟩

theorem setReason_shape (reason : String) (s : PluginState) :
    setReason reason s = { s with _state_reason := reason } := by
  unfold setReason
  split
  case isTrue h => rw [← h]
  case isFalse => rfl

theorem setPhase_shape (now : ℚ) (newState : OvertakeState) (reason : String)
    (s : PluginState) :
    ∃ since llg, setPhase now newState reason s = { s with
      _state := newState
      _state_since := since
      _state_reason := reason
      _last_logged_state := llg } := by
  unfold setPhase
  dsimp only
  repeat' split
  case isTrue h =>
    exact ⟨s._state_since, s._last_logged_state, by rw [← h.1, ← h.2]⟩
  all_goals exact ⟨_, _, rfl⟩

theorem setPhase_since_of_ne (now : ℚ) (newState : OvertakeState)
    (reason : String) (s : PluginState) (h : s._state ≠ newState) :
    (setPhase now newState reason s)._state_since = now := by
  unfold setPhase
  dsimp only
  repeat' split
  case isTrue h2 => exact absurd h2.1 h
  all_goals rfl

theorem applySpeedBoost_shape (set : Settings) (s : PluginState) :
    ∃ t, applySpeedBoost set s = { s with _speed_boost_target := t } := by
  unfold applySpeedBoost
  dsimp only
  repeat' split
  all_goals exact ⟨_, rfl⟩

theorem removeSpeedBoost_shape (s : PluginState) :
    removeSpeedBoost s = { s with _speed_boost_target := 0 } := by
  unfold removeSpeedBoost
  split
  case isTrue h => rw [← h.1]
  case isFalse => rfl

theorem triggerIndicator_shape (now : ℚ) (side : Side) (s : PluginState) :
    ∃ pa pr ls lt lb rb, triggerIndicator now side s = { s with
      _pending_indicator_attr := pa
      _pending_indicator_release := pr
      _last_indicator_side := ls
      _last_indicator_time := lt
      controller_lblinker := lb
      controller_rblinker := rb } := by
  unfold triggerIndicator setControllerAttr
  dsimp only
  repeat' split
  all_goals exact ⟨_, _, _, _, _, _, rfl⟩

theorem requestLaneChange_shape (now : ℚ) (side : Side) (s : PluginState) :
    ∃ pa pr ls lt lb rb, requestLaneChange now side s = { s with
      _pending_indicator_attr := pa
      _pending_indicator_release := pr
      _last_indicator_side := ls
      _last_indicator_time := lt
      controller_lblinker := lb
      controller_rblinker := rb } := by
  unfold requestLaneChange
  split
  case isTrue =>
    exact ⟨s._pending_indicator_attr, s._pending_indicator_release,
      s._last_indicator_side, s._last_indicator_time, s.controller_lblinker,
      s.controller_rblinker, rfl⟩
  case isFalse => exact triggerIndicator_shape now side s

theorem leadUpdate_shape (now : ℚ) (vh : Option ℤ) (s : PluginState) :
    ∃ l t, leadUpdate now vh s = { s with
      _lead_vehicle_id := l
      _lead_last_seen := t } := by
  unfold leadUpdate
  repeat' split
  all_goals exact ⟨_, _, rfl⟩

theorem resetState_shape (now : ℚ) (reason : String) (s : PluginState) :
    ∃ since llg a e t, resetState now reason s = { s with
      _state := OvertakeState.IDLE
      _state_since := since
      _state_reason := reason
      _last_logged_state := llg
      _requested_side := none
      _lead_vehicle_id := none
      _lead_last_seen := 0
      _overtaken_vehicle_id := none
      _observed_execution := false
      _speed_boost_applied := a
      _speed_boost_target := 0
      _active_speed_event := e
      _active_speed_event_started := t } := by
  unfold resetState
  obtain ⟨since, llg, h1⟩ := setPhase_shape now OvertakeState.IDLE reason s
  rw [h1]
  dsimp only
  set s2 : PluginState := { s with
    _state := OvertakeState.IDLE
    _state_since := since
    _state_reason := reason
    _last_logged_state := llg
    _requested_side := none
    _lead_vehicle_id := none
    _lead_last_seen := 0
    _overtaken_vehicle_id := none
    _observed_execution := false } with hs2
  obtain ⟨a, e, t, h2⟩ := updateSpeedAdjustments_shape now (removeSpeedBoost s2)
  rw [removeSpeedBoost_shape s2] at h2
  refine ⟨since, llg, a, e, t, ?_⟩
  rw [removeSpeedBoost_shape s2, h2]

@[simp] theorem refreshSidePreferences_state (set : Settings) (s : PluginState) :
    (refreshSidePreferences set s)._state = s._state := by
  obtain ⟨p, h⟩ := refreshSidePreferences_shape set s
  rw [h]

@[simp] theorem refreshSidePreferences_ovt (set : Settings) (s : PluginState) :
    (refreshSidePreferences set s)._overtaken_vehicle_id = s._overtaken_vehicle_id := by
  obtain ⟨p, h⟩ := refreshSidePreferences_shape set s
  rw [h]

@[simp] theorem refreshSidePreferences_app (set : Settings) (s : PluginState) :
    (refreshSidePreferences set s)._speed_boost_applied = s._speed_boost_applied := by
  obtain ⟨p, h⟩ := refreshSidePreferences_shape set s
  rw [h]

@[simp] theorem refreshSidePreferences_tgt (set : Settings) (s : PluginState) :
    (refreshSidePreferences set s)._speed_boost_target = s._speed_boost_target := by
  obtain ⟨p, h⟩ := refreshSidePreferences_shape set s
  rw [h]

@[simp] theorem refreshSidePreferences_since (set : Settings) (s : PluginState) :
    (refreshSidePreferences set s)._state_since = s._state_since := by
  obtain ⟨p, h⟩ := refreshSidePreferences_shape set s
  rw [h]

@[simp] theorem updateIndicatorPulse_state (now : ℚ) (s : PluginState) :
    (updateIndicatorPulse now s)._state = s._state := by
  obtain ⟨pa, pr, lb, rb, h⟩ := updateIndicatorPulse_shape now s
  rw [h]

@[simp] theorem updateIndicatorPulse_ovt (now : ℚ) (s : PluginState) :
    (updateIndicatorPulse now s)._overtaken_vehicle_id = s._overtaken_vehicle_id := by
  obtain ⟨pa, pr, lb, rb, h⟩ := updateIndicatorPulse_shape now s
  rw [h]

@[simp] theorem updateIndicatorPulse_app (now : ℚ) (s : PluginState) :
    (updateIndicatorPulse now s)._speed_boost_applied = s._speed_boost_applied := by
  obtain ⟨pa, pr, lb, rb, h⟩ := updateIndicatorPulse_shape now s
  rw [h]

@[simp] theorem updateIndicatorPulse_tgt (now : ℚ) (s : PluginState) :
    (updateIndicatorPulse now s)._speed_boost_target = s._speed_boost_target := by
  obtain ⟨pa, pr, lb, rb, h⟩ := updateIndicatorPulse_shape now s
  rw [h]

@[simp] theorem updateIndicatorPulse_since (now : ℚ) (s : PluginState) :
    (updateIndicatorPulse now s)._state_since = s._state_since := by
  obtain ⟨pa, pr, lb, rb, h⟩ := updateIndicatorPulse_shape now s
  rw [h]

@[simp] theorem updateSpeedAdjustments_state (now : ℚ) (s : PluginState) :
    (updateSpeedAdjustments now s)._state = s._state := by
  obtain ⟨a, e, t, h⟩ := updateSpeedAdjustments_shape now s
  rw [h]

@[simp] theorem updateSpeedAdjustments_ovt (now : ℚ) (s : PluginState) :
    (updateSpeedAdjustments now s)._overtaken_vehicle_id = s._overtaken_vehicle_id := by
  obtain ⟨a, e, t, h⟩ := updateSpeedAdjustments_shape now s
  rw [h]

@[simp] theorem updateSpeedAdjustments_tgt (now : ℚ) (s : PluginState) :
    (updateSpeedAdjustments now s)._speed_boost_target = s._speed_boost_target := by
  obtain ⟨a, e, t, h⟩ := updateSpeedAdjustments_shape now s
  rw [h]

@[simp] theorem updateSpeedAdjustments_since (now : ℚ) (s : PluginState) :
    (updateSpeedAdjustments now s)._state_since = s._state_since := by
  obtain ⟨a, e, t, h⟩ := updateSpeedAdjustments_shape now s
  rw [h]

@[simp] theorem requestLaneChange_state (now : ℚ) (side : Side) (s : PluginState) :
    (requestLaneChange now side s)._state = s._state := by
  obtain ⟨pa, pr, ls, lt, lb, rb, h⟩ := requestLaneChange_shape now side s
  rw [h]

@[simp] theorem requestLaneChange_ovt (now : ℚ) (side : Side) (s : PluginState) :
    (requestLaneChange now side s)._overtaken_vehicle_id = s._overtaken_vehicle_id := by
  obtain ⟨pa, pr, ls, lt, lb, rb, h⟩ := requestLaneChange_shape now side s
  rw [h]

@[simp] theorem requestLaneChange_app (now : ℚ) (side : Side) (s : PluginState) :
    (requestLaneChange now side s)._speed_boost_applied = s._speed_boost_applied := by
  obtain ⟨pa, pr, ls, lt, lb, rb, h⟩ := requestLaneChange_shape now side s
  rw [h]

@[simp] theorem requestLaneChange_tgt (now : ℚ) (side : Side) (s : PluginState) :
    (requestLaneChange now side s)._speed_boost_target = s._speed_boost_target := by
  obtain ⟨pa, pr, ls, lt, lb, rb, h⟩ := requestLaneChange_shape now side s
  rw [h]

@[simp] theorem requestLaneChange_since (now : ℚ) (side : Side) (s : PluginState) :
    (requestLaneChange now side s)._state_since = s._state_since := by
  obtain ⟨pa, pr, ls, lt, lb, rb, h⟩ := requestLaneChange_shape now side s
  rw [h]

@[simp] theorem applySpeedBoost_state (set : Settings) (s : PluginState) :
    (applySpeedBoost set s)._state = s._state := by
  obtain ⟨t, h⟩ := applySpeedBoost_shape set s
  rw [h]

@[simp] theorem applySpeedBoost_ovt (set : Settings) (s : PluginState) :
    (applySpeedBoost set s)._overtaken_vehicle_id = s._overtaken_vehicle_id := by
  obtain ⟨t, h⟩ := applySpeedBoost_shape set s
  rw [h]

@[simp] theorem applySpeedBoost_app (set : Settings) (s : PluginState) :
    (applySpeedBoost set s)._speed_boost_applied = s._speed_boost_applied := by
  obtain ⟨t, h⟩ := applySpeedBoost_shape set s
  rw [h]

@[simp] theorem applySpeedBoost_since (set : Settings) (s : PluginState) :
    (applySpeedBoost set s)._state_since = s._state_since := by
  obtain ⟨t, h⟩ := applySpeedBoost_shape set s
  rw [h]

@[simp] theorem leadUpdate_state (now : ℚ) (vh : Option ℤ) (s : PluginState) :
    (leadUpdate now vh s)._state = s._state := by
  obtain ⟨l, t, h⟩ := leadUpdate_shape now vh s
  rw [h]

@[simp] theorem leadUpdate_ovt (now : ℚ) (vh : Option ℤ) (s : PluginState) :
    (leadUpdate now vh s)._overtaken_vehicle_id = s._overtaken_vehicle_id := by
  obtain ⟨l, t, h⟩ := leadUpdate_shape now vh s
  rw [h]

@[simp] theorem leadUpdate_app (now : ℚ) (vh : Option ℤ) (s : PluginState) :
    (leadUpdate now vh s)._speed_boost_applied = s._speed_boost_applied := by
  obtain ⟨l, t, h⟩ := leadUpdate_shape now vh s
  rw [h]

@[simp] theorem leadUpdate_tgt (now : ℚ) (vh : Option ℤ) (s : PluginState) :
    (leadUpdate now vh s)._speed_boost_target = s._speed_boost_target := by
  obtain ⟨l, t, h⟩ := leadUpdate_shape now vh s
  rw [h]

@[simp] theorem leadUpdate_since (now : ℚ) (vh : Option ℤ) (s : PluginState) :
    (leadUpdate now vh s)._state_since = s._state_since := by
  obtain ⟨l, t, h⟩ := leadUpdate_shape now vh s
  rw [h]

@[simp] theorem setPhase_ovt (now : ℚ) (st : OvertakeState) (r : String) (s : PluginState) :
    (setPhase now st r s)._overtaken_vehicle_id = s._overtaken_vehicle_id := by
  obtain ⟨since, llg, h⟩ := setPhase_shape now st r s
  rw [h]

@[simp] theorem setPhase_app (now : ℚ) (st : OvertakeState) (r : String) (s : PluginState) :
    (setPhase now st r s)._speed_boost_applied = s._speed_boost_applied := by
  obtain ⟨since, llg, h⟩ := setPhase_shape now st r s
  rw [h]

@[simp] theorem setPhase_tgt (now : ℚ) (st : OvertakeState) (r : String) (s : PluginState) :
    (setPhase now st r s)._speed_boost_target = s._speed_boost_target := by
  obtain ⟨since, llg, h⟩ := setPhase_shape now st r s
  rw [h]

@[simp] theorem startPulseIfPending_state (now : ℚ) (s : PluginState) :
    (startPulseIfPending now s)._state = s._state := by
  obtain ⟨e, t, h⟩ := startPulseIfPending_shape now s
  rw [h]

@[simp] theorem startPulseIfPending_ovt (now : ℚ) (s : PluginState) :
    (startPulseIfPending now s)._overtaken_vehicle_id = s._overtaken_vehicle_id := by
  obtain ⟨e, t, h⟩ := startPulseIfPending_shape now s
  rw [h]

@[simp] theorem startPulseIfPending_app (now : ℚ) (s : PluginState) :
    (startPulseIfPending now s)._speed_boost_applied = s._speed_boost_applied := by
  obtain ⟨e, t, h⟩ := startPulseIfPending_shape now s
  rw [h]

@[simp] theorem startPulseIfPending_tgt (now : ℚ) (s : PluginState) :
    (startPulseIfPending now s)._speed_boost_target = s._speed_boost_target := by
  obtain ⟨e, t, h⟩ := startPulseIfPending_shape now s
  rw [h]

@[simp] theorem finishSpeedAdjustment_state (s : PluginState) (c : Bool) :
    (finishSpeedAdjustment s c)._state = s._state := by
  obtain ⟨a, e, t, h⟩ := finishSpeedAdjustment_shape s c
  rw [h]

@[simp] theorem finishSpeedAdjustment_ovt (s : PluginState) (c : Bool) :
    (finishSpeedAdjustment s c)._overtaken_vehicle_id = s._overtaken_vehicle_id := by
  obtain ⟨a, e, t, h⟩ := finishSpeedAdjustment_shape s c
  rw [h]

@[simp] theorem finishSpeedAdjustment_tgt (s : PluginState) (c : Bool) :
    (finishSpeedAdjustment s c)._speed_boost_target = s._speed_boost_target := by
  obtain ⟨a, e, t, h⟩ := finishSpeedAdjustment_shape s c
  rw [h]

@[simp] theorem runUpdates_state (set : Settings) (now : ℚ) (s : PluginState) :
    (runUpdates set now s)._state = s._state := by
  obtain ⟨p, pa, pr, lb, rb, a, e, t, h⟩ := runUpdates_shape set now s
  rw [h]

@[simp] theorem runUpdates_ovt (set : Settings) (now : ℚ) (s : PluginState) :
    (runUpdates set now s)._overtaken_vehicle_id = s._overtaken_vehicle_id := by
  obtain ⟨p, pa, pr, lb, rb, a, e, t, h⟩ := runUpdates_shape set now s
  rw [h]

@[simp] theorem runUpdates_tgt (set : Settings) (now : ℚ) (s : PluginState) :
    (runUpdates set now s)._speed_boost_target = s._speed_boost_target := by
  obtain ⟨p, pa, pr, lb, rb, a, e, t, h⟩ := runUpdates_shape set now s
  rw [h]

@[simp] theorem runUpdates_since (set : Settings) (now : ℚ) (s : PluginState) :
    (runUpdates set now s)._state_since = s._state_since := by
  obtain ⟨p, pa, pr, lb, rb, a, e, t, h⟩ := runUpdates_shape set now s
  rw [h]

@[simp] theorem setPhase_state (now : ℚ) (st : OvertakeState) (r : String)
    (s : PluginState) : (setPhase now st r s)._state = st := by
  obtain ⟨since, llg, h⟩ := setPhase_shape now st r s
  rw [h]

@[simp] theorem setPhase_reason (now : ℚ) (st : OvertakeState) (r : String)
    (s : PluginState) : (setPhase now st r s)._state_reason = r := by
  obtain ⟨since, llg, h⟩ := setPhase_shape now st r s
  rw [h]

@[simp] theorem setReason_state (r : String) (s : PluginState) :
    (setReason r s)._state = s._state := by
  rw [setReason_shape]

@[simp] theorem setReason_ovt (r : String) (s : PluginState) :
    (setReason r s)._overtaken_vehicle_id = s._overtaken_vehicle_id := by
  rw [setReason_shape]

@[simp] theorem setReason_app (r : String) (s : PluginState) :
    (setReason r s)._speed_boost_applied = s._speed_boost_applied := by
  rw [setReason_shape]

@[simp] theorem setReason_tgt (r : String) (s : PluginState) :
    (setReason r s)._speed_boost_target = s._speed_boost_target := by
  rw [setReason_shape]

@[simp] theorem setReason_since (r : String) (s : PluginState) :
    (setReason r s)._state_since = s._state_since := by
  rw [setReason_shape]

@[simp] theorem removeSpeedBoost_state (s : PluginState) :
    (removeSpeedBoost s)._state = s._state := by
  rw [removeSpeedBoost_shape]

@[simp] theorem removeSpeedBoost_ovt (s : PluginState) :
    (removeSpeedBoost s)._overtaken_vehicle_id = s._overtaken_vehicle_id := by
  rw [removeSpeedBoost_shape]

@[simp] theorem removeSpeedBoost_app (s : PluginState) :
    (removeSpeedBoost s)._speed_boost_applied = s._speed_boost_applied := by
  rw [removeSpeedBoost_shape]

@[simp] theorem removeSpeedBoost_tgt (s : PluginState) :
    (removeSpeedBoost s)._speed_boost_target = 0 := by
  rw [removeSpeedBoost_shape]

@[simp] theorem withVectors_state (api : Api) (s : PluginState) :
    (withVectors api s)._state = s._state := rfl

@[simp] theorem withVectors_ovt (api : Api) (s : PluginState) :
    (withVectors api s)._overtaken_vehicle_id = s._overtaken_vehicle_id := rfl

@[simp] theorem withVectors_app (api : Api) (s : PluginState) :
    (withVectors api s)._speed_boost_applied = s._speed_boost_applied := rfl

@[simp] theorem withVectors_tgt (api : Api) (s : PluginState) :
    (withVectors api s)._speed_boost_target = s._speed_boost_target := rfl

@[simp] theorem withVectors_since (api : Api) (s : PluginState) :
    (withVectors api s)._state_since = s._state_since := rfl

theorem leadUpdate_some (now : ℚ) (b : ℤ) (s : PluginState) :
    leadUpdate now (some b) s = { s with
      _lead_vehicle_id := some b
      _lead_last_seen := now } := rfl

theorem leadUpdate_none (now : ℚ) (s : PluginState) :
    leadUpdate now none s = s := rfl

theorem withVectors_def (api : Api) (s : PluginState) :
    withVectors api s = { s with
      _forward_vector := some (api.forwardX, api.forwardZ)
      _right_vector := some (api.rightX, api.rightZ) } := rfl

theorem project_withVectors (api : Api) (s s' : PluginState) (x z : ℚ) :
    project (withVectors api s) api x z =
      project (withVectors api s') api x z := rfl

theorem laneIsClear_withVectors (set : Settings) (api : Api)
    (s s' : PluginState) (side : Side) (tr : List Vehicle) (f r : ℚ)
    (d : Bool) :
    laneIsClear set (withVectors api s) side api tr f r d =
      laneIsClear set (withVectors api s') side api tr f r d := rfl

theorem isOvertakenClear_withVectors (api : Api) (s s' : PluginState)
    (tr : List Vehicle) (d : ℚ)
    (h : s._overtaken_vehicle_id = s'._overtaken_vehicle_id) :
    isOvertakenVehicleClear (withVectors api s) api tr d =
      isOvertakenVehicleClear (withVectors api s') api tr d := by
  unfold isOvertakenVehicleClear withVectors
  dsimp only
  rw [h]
  exact rfl

/-- C1: the start-eligibility check evaluates its conditions in the fixed
order (lane-change status not idle; lead absent or at non-positive
distance; lead distance above the configured maximum; speed below the
configured minimum; positive known speed limit with limit-minus-speed
below the configured delta; highway-only mode on a non-highway road;
known positive intersection distance below the configured buffer) and
short-circuits: for every input the reported verdict and reason are those
of the first failing condition in `startConditionList`.  In particular,
when a lane change is already active and all other conditions are
favorable, the check reports the lane change as already active. -/
theorem checkStartConditions_is_ordered_first_failing
    (set : Settings) (speed speed_limit : ℚ) (lead_distance nid : Option ℚ)
    (lane_status road_type : String) :
    checkStartConditions set speed speed_limit lead_distance lane_status
        road_type nid =
      firstFailing (startConditionList set speed speed_limit lead_distance
        lane_status road_type nid)
    ∧ checkStartConditions defaultSettings 80 100 (some 25) "executing left"
        "highway" none = (false, "Lane change already active") := by
  refine ⟨?_, by decide⟩
  by_cases h1 : lane_status = "idle"
  case neg =>
    simp [checkStartConditions, startConditionList, firstFailing, h1]
  case pos =>
  cases lead_distance with
  | none => simp [checkStartConditions, startConditionList, firstFailing, h1]
  | some lead =>
  by_cases h2 : lead ≤ 0
  case pos =>
    simp [checkStartConditions, startConditionList, firstFailing, h1, h2]
  case neg =>
  by_cases h3 : set.min_lead_distance_m < lead
  case pos =>
    simp [checkStartConditions, startConditionList, firstFailing, h1, h2, h3]
  case neg =>
  by_cases h4 : speed < set.min_speed_kph
  case pos =>
    simp [checkStartConditions, startConditionList, firstFailing, h1, h2, h3, h4]
  case neg =>
  by_cases h5a : 0 < speed_limit
  case neg =>
    by_cases h6 : set.require_highway = true ∧ ¬road_type = "highway"
    all_goals cases nid <;>
      simp [checkStartConditions, startConditionList, firstFailing,
        h1, h2, h3, h4, h5a, h6]
  case pos =>
  by_cases h5b : speed_limit - speed < set.min_speed_delta_kph
  case pos =>
    simp [checkStartConditions, startConditionList, firstFailing,
      h1, h2, h3, h4, h5a, h5b]
  case neg =>
  by_cases h6 : set.require_highway = true ∧ ¬road_type = "highway"
  case pos =>
    simp [checkStartConditions, startConditionList, firstFailing,
      h1, h2, h3, h4, h5a, h5b, h6]
  case neg =>
  cases nid with
  | none =>
    simp [checkStartConditions, startConditionList, firstFailing,
      h1, h2, h3, h4, h5a, h5b, h6]
  | some d =>
    by_cases h7a : 0 < d
    · by_cases h7b : d < set.intersection_buffer_m
      all_goals
        simp [checkStartConditions, startConditionList, firstFailing,
          h1, h2, h3, h4, h5a, h5b, h6, h7a, h7b]
    · simp [checkStartConditions, startConditionList, firstFailing,
        h1, h2, h3, h4, h5a, h5b, h6, h7a]


/-- C2: on any tick processed normally (plugin enabled, dependencies
ready, telemetry present) in which the phase is Monitoring or
RequestingOut and the vehicle-highlights input delivers a lead id `b`
different from the currently tracked non-null lead id `a`, the tick
performs a full reset: the next phase is Idle with reason "Lead vehicle
changed", and the requested side, lead id, overtaken id and
observed-execution flag are cleared and the boost target zeroed. -/
theorem run_lead_change_aborts (set : Settings) (inp : RunInput)
    (s : PluginState) (api : Api) (a b : ℤ)
    (hen : set.enabled = true)
    (hdep : dependenciesReady inp.status_tag = true)
    (hapi : inp.api = some api)
    (hphase : s._state = OvertakeState.MONITORING ∨
      s._state = OvertakeState.REQUESTING_OUT)
    (hlead : s._lead_vehicle_id = some a)
    (hvh : inp.vehicle_highlights = some b)
    (hne : b ≠ a) :
    (run set inp s)._state = OvertakeState.IDLE ∧
    (run set inp s)._state_reason = "Lead vehicle changed" ∧
    (run set inp s)._requested_side = none ∧
    (run set inp s)._lead_vehicle_id = none ∧
    (run set inp s)._overtaken_vehicle_id = none ∧
    (run set inp s)._observed_execution = false ∧
    (run set inp s)._speed_boost_target = 0 := by
  obtain ⟨p, pa, pr, lb, rb, a0, e0, t0, h1⟩ := runUpdates_shape set inp.now s
  unfold run
  dsimp only
  rw [h1, hapi, hvh]
  dsimp only
  rw [if_neg (by simp [hen]), if_neg (by simp [hdep]), withVectors_def]
  dsimp only
  rw [leadUpdate_some]
  dsimp only
  rw [if_pos ⟨by simp, by simp [hlead, hne], by simpa using hphase⟩]
  obtain ⟨since, llg, a1, e1, t1, hr⟩ :=
    resetState_shape inp.now "Lead vehicle changed" ({ s with
      _pass_side := p
      _pending_indicator_attr := pa
      _pending_indicator_release := pr
      controller_lblinker := lb
      controller_rblinker := rb
      _speed_boost_applied := a0
      _active_speed_event := e0
      _active_speed_event_started := t0
      _forward_vector := some (api.forwardX, api.forwardZ)
      _right_vector := some (api.rightX, api.rightZ)
      _lead_vehicle_id := some b
      _lead_last_seen := inp.now })
  rw [hr]
  exact ⟨rfl, rfl, rfl, rfl, rfl, rfl, rfl⟩

/-- C9: on any tick processed normally (plugin enabled, dependencies
ready, telemetry present) in which the phase is Monitoring or
RequestingOut, no lead id is currently tracked, and the
vehicle-highlights input delivers an integer id `b`, the first
acquisition is treated as a lead change: the tick performs a full reset
to Idle with reason "Lead vehicle changed". -/
theorem run_first_lead_acquisition_aborts (set : Settings) (inp : RunInput)
    (s : PluginState) (api : Api) (b : ℤ)
    (hen : set.enabled = true)
    (hdep : dependenciesReady inp.status_tag = true)
    (hapi : inp.api = some api)
    (hphase : s._state = OvertakeState.MONITORING ∨
      s._state = OvertakeState.REQUESTING_OUT)
    (hlead : s._lead_vehicle_id = none)
    (hvh : inp.vehicle_highlights = some b) :
    (run set inp s)._state = OvertakeState.IDLE ∧
    (run set inp s)._state_reason = "Lead vehicle changed" ∧
    (run set inp s)._requested_side = none ∧
    (run set inp s)._lead_vehicle_id = none ∧
    (run set inp s)._overtaken_vehicle_id = none ∧
    (run set inp s)._observed_execution = false ∧
    (run set inp s)._speed_boost_target = 0 := by
  obtain ⟨p, pa, pr, lb, rb, a0, e0, t0, h1⟩ := runUpdates_shape set inp.now s
  unfold run
  dsimp only
  rw [h1, hapi, hvh]
  dsimp only
  rw [if_neg (by simp [hen]), if_neg (by simp [hdep]), withVectors_def]
  dsimp only
  rw [leadUpdate_some]
  dsimp only
  rw [if_pos ⟨by simp, by simp [hlead], by simpa using hphase⟩]
  obtain ⟨since, llg, a1, e1, t1, hr⟩ :=
    resetState_shape inp.now "Lead vehicle changed" ({ s with
      _pass_side := p
      _pending_indicator_attr := pa
      _pending_indicator_release := pr
      controller_lblinker := lb
      controller_rblinker := rb
      _speed_boost_applied := a0
      _active_speed_event := e0
      _active_speed_event_started := t0
      _forward_vector := some (api.forwardX, api.forwardZ)
      _right_vector := some (api.rightX, api.rightZ)
      _lead_vehicle_id := some b
      _lead_last_seen := inp.now })
  rw [hr]
  exact ⟨rfl, rfl, rfl, rfl, rfl, rfl, rfl⟩

theorem isOvertakenClear_only_fields (s s2 : PluginState) (api : Api)
    (tr : List Vehicle) (d : ℚ)
    (hov : s._overtaken_vehicle_id = s2._overtaken_vehicle_id)
    (hf : s._forward_vector = s2._forward_vector)
    (hr : s._right_vector = s2._right_vector) :
    isOvertakenVehicleClear s api tr d = isOvertakenVehicleClear s2 api tr d := by
  unfold isOvertakenVehicleClear project
  rw [hov, hf, hr]

theorem laneIsClear_only_fields (set : Settings) (s s2 : PluginState)
    (side : Side) (api : Api) (tr : List Vehicle) (f r : ℚ) (d : Bool)
    (hf : s._forward_vector = s2._forward_vector)
    (hr : s._right_vector = s2._right_vector) :
    laneIsClear set s side api tr f r d = laneIsClear set s2 side api tr f r d := by
  unfold laneIsClear vehicleSkipped project
  rw [hf, hr]

theorem resetState_fields (now : ℚ) (reason : String) (s : PluginState) :
    (resetState now reason s)._state = OvertakeState.IDLE ∧
    (resetState now reason s)._state_reason = reason ∧
    (resetState now reason s)._requested_side = none ∧
    (resetState now reason s)._lead_vehicle_id = none ∧
    (resetState now reason s)._overtaken_vehicle_id = none ∧
    (resetState now reason s)._observed_execution = false ∧
    (resetState now reason s)._speed_boost_target = 0 := by
  obtain ⟨since, llg, a, e, t, h⟩ := resetState_shape now reason s
  rw [h]
  exact ⟨rfl, rfl, rfl, rfl, rfl, rfl, rfl⟩

@[simp] theorem resetState_state (now : ℚ) (r : String) (s : PluginState) :
    (resetState now r s)._state = OvertakeState.IDLE :=
  (resetState_fields now r s).1

@[simp] theorem resetState_ovt (now : ℚ) (r : String) (s : PluginState) :
    (resetState now r s)._overtaken_vehicle_id = none :=
  (resetState_fields now r s).2.2.2.2.1

@[simp] theorem resetState_tgt (now : ℚ) (r : String) (s : PluginState) :
    (resetState now r s)._speed_boost_target = 0 :=
  (resetState_fields now r s).2.2.2.2.2.2

theorem phaseStep_clearing (set : Settings) (now : ℚ) (lane : String)
    (api : Api) (traffic : List Vehicle) (el : Bool) (rs : String)
    (u : PluginState)
    (hst : u._state = OvertakeState.CLEARING)
    (helap : now - u._state_since > CLEARING_TIMEOUT_S) :
    (¬(isOvertakenVehicleClear u api traffic set.return_clearance_m = true ∧
        laneIsClear set u u._original_side api traffic
          set.lane_clear_front_m set.lane_clear_rear_m true = true) →
      (phaseStep set now lane api traffic el rs u)._state =
          OvertakeState.IDLE ∧
      (phaseStep set now lane api traffic el rs u)._state_reason =
          "Return timeout" ∧
      (phaseStep set now lane api traffic el rs u)._overtaken_vehicle_id =
          none ∧
      (phaseStep set now lane api traffic el rs u)._speed_boost_target = 0) ∧
    (isOvertakenVehicleClear u api traffic set.return_clearance_m = true →
      laneIsClear set u u._original_side api traffic
        set.lane_clear_front_m set.lane_clear_rear_m true = true →
      (phaseStep set now lane api traffic el rs u)._state =
        OvertakeState.REQUESTING_RETURN) := by
  unfold phaseStep
  rw [hst]
  dsimp only
  constructor
  · intro hnot
    cases hIC : isOvertakenVehicleClear u api traffic set.return_clearance_m with
    | false =>
      simp only [Bool.false_eq_true, if_false]
      rw [setReason_shape]
      dsimp only
      rw [if_pos helap]
      exact ⟨(resetState_fields now "Return timeout" _).1,
        (resetState_fields now "Return timeout" _).2.1,
        (resetState_fields now "Return timeout" _).2.2.2.2.1,
        (resetState_fields now "Return timeout" _).2.2.2.2.2.2⟩
    | true =>
      cases hLC : laneIsClear set u u._original_side api traffic
          set.lane_clear_front_m set.lane_clear_rear_m true with
      | false =>
        simp only [eq_self_iff_true, if_true, Bool.false_eq_true, if_false]
        rw [setReason_shape]
        dsimp only
        rw [if_pos helap]
        exact ⟨(resetState_fields now "Return timeout" _).1,
          (resetState_fields now "Return timeout" _).2.1,
          (resetState_fields now "Return timeout" _).2.2.2.2.1,
          (resetState_fields now "Return timeout" _).2.2.2.2.2.2⟩
      | true => exact absurd ⟨hIC, hLC⟩ hnot
  · intro h1 h2
    rw [h1, h2]
    simp only [eq_self_iff_true, if_true]
    obtain ⟨pa, pr, ls, lt, lb, rb, hreq⟩ := requestLaneChange_shape now
      u._original_side { u with
        _state := OvertakeState.CLEARING
        _requested_side := some u._original_side }
    rw [hreq]
    dsimp only
    have hne : ({ u with
        _state := OvertakeState.CLEARING
        _requested_side := some u._original_side
        _pending_indicator_attr := pa
        _pending_indicator_release := pr
        _last_indicator_side := ls
        _last_indicator_time := lt
        controller_lblinker := lb
        controller_rblinker := rb
        _observed_execution := false : PluginState})._state ≠
        OvertakeState.REQUESTING_RETURN := by
      dsimp only
      decide
    rw [setPhase_since_of_ne _ _ _ _ hne]
    rw [if_neg (by simp [CLEARING_TIMEOUT_S])]
    obtain ⟨since, llg, hsp⟩ := setPhase_shape now OvertakeState.REQUESTING_RETURN
      ("Requesting return to " ++ sideStr u._original_side) _
    rw [hsp]

/-- C3 (amended): on a tick processed normally (enabled, dependencies
ready, telemetry present) while the phase is Clearing with more than 30
seconds elapsed since phase entry, the machine is fully reset to Idle
with reason "Return timeout" - unless on that same tick the overtaken
vehicle is clear and the original lane is clear, in which case the
transition to RequestingReturn wins: it refreshes the phase-entry
timestamp before the timeout comparison, so the timeout does not fire.
The sub-conditions are evaluated on the tick state, whose orientation
vectors have been refreshed from telemetry (`withVectors api s`). -/
theorem run_clearing_timeout (set : Settings) (inp : RunInput)
    (s : PluginState) (api : Api)
    (hen : set.enabled = true)
    (hdep : dependenciesReady inp.status_tag = true)
    (hapi : inp.api = some api)
    (hphase : s._state = OvertakeState.CLEARING)
    (helapsed : inp.now - s._state_since > CLEARING_TIMEOUT_S) :
    (¬(isOvertakenVehicleClear (withVectors api s) api inp.traffic
          set.return_clearance_m = true ∧
        laneIsClear set (withVectors api s) s._original_side api inp.traffic
          set.lane_clear_front_m set.lane_clear_rear_m true = true) →
      (run set inp s)._state = OvertakeState.IDLE ∧
      (run set inp s)._state_reason = "Return timeout" ∧
      (run set inp s)._overtaken_vehicle_id = none ∧
      (run set inp s)._speed_boost_target = 0) ∧
    (isOvertakenVehicleClear (withVectors api s) api inp.traffic
        set.return_clearance_m = true →
      laneIsClear set (withVectors api s) s._original_side api inp.traffic
        set.lane_clear_front_m set.lane_clear_rear_m true = true →
      (run set inp s)._state = OvertakeState.REQUESTING_RETURN) := by
  obtain ⟨p, pa, pr, lb, rb, a0, e0, t0, h1⟩ := runUpdates_shape set inp.now s
  unfold run
  dsimp only
  rw [h1, hapi]
  dsimp only
  rw [if_neg (by simp [hen]), if_neg (by simp [hdep])]
  obtain ⟨l, lt, hlu⟩ := leadUpdate_shape inp.now inp.vehicle_highlights
    (withVectors api { s with
      _pass_side := p
      _pending_indicator_attr := pa
      _pending_indicator_release := pr
      controller_lblinker := lb
      controller_rblinker := rb
      _speed_boost_applied := a0
      _active_speed_event := e0
      _active_speed_event_started := t0 })
  rw [hlu]
  rw [if_neg (by simp [withVectors, hphase])]
  exact phaseStep_clearing set inp.now inp.lane_status api inp.traffic
    (checkStartConditions set (speedKph api) (effectiveSpeedLimit set api)
      inp.lead_distance inp.lane_status inp.road_type
      inp.next_intersection_distance).1
    (checkStartConditions set (speedKph api) (effectiveSpeedLimit set api)
      inp.lead_distance inp.lane_status inp.road_type
      inp.next_intersection_distance).2
    { withVectors api { s with
        _pass_side := p
        _pending_indicator_attr := pa
        _pending_indicator_release := pr
        controller_lblinker := lb
        controller_rblinker := rb
        _speed_boost_applied := a0
        _active_speed_event := e0
        _active_speed_event_started := t0 } with
      _lead_vehicle_id := l
      _lead_last_seen := lt }
    hphase helapsed

/-- C3 counterexample: a tick in Clearing at 31 s (elapsed 31 s > 30 s)
where the overtaken vehicle is no longer tracked in traffic and the
original lane is empty does not reset to Idle with "Return timeout" as
the claim states: the machine transitions to RequestingReturn instead. -/
theorem run_clearing_timeout_counterexample :
    tickInpClear.now - clearingState._state_since > CLEARING_TIMEOUT_S ∧
    clearingState._state = OvertakeState.CLEARING ∧
    (run defaultSettings tickInpClear clearingState)._state =
      OvertakeState.REQUESTING_RETURN ∧
    (run defaultSettings tickInpClear clearingState)._state_reason =
      "Requesting return to right" := by
  refine ⟨by decide, by decide, by decide, by decide⟩

/-- C3 witness: at the same 31 s Clearing tick with the overtaken vehicle
still 10 m behind (sub-condition failing), the amended theorem yields the
full reset to Idle with reason "Return timeout". -/
theorem run_clearing_timeout_witness :
    (run defaultSettings tickInpClearBlocked clearingState)._state =
      OvertakeState.IDLE ∧
    (run defaultSettings tickInpClearBlocked clearingState)._state_reason =
      "Return timeout" ∧
    (run defaultSettings tickInpClearBlocked clearingState)._overtaken_vehicle_id =
      none ∧
    (run defaultSettings tickInpClearBlocked clearingState)._speed_boost_target =
      0 :=
  (run_clearing_timeout defaultSettings tickInpClearBlocked clearingState apiA
    (by decide) (by decide) rfl (by decide) (by decide)).1 (by decide)

/-- C2 witness: a Monitoring state tracking lead 7 receives highlight id 8
on an otherwise favorable tick and fully resets to Idle. -/
theorem run_lead_change_aborts_witness :
    (run defaultSettings tickInp4 monState)._state = OvertakeState.IDLE ∧
    (run defaultSettings tickInp4 monState)._state_reason =
      "Lead vehicle changed" ∧
    (run defaultSettings tickInp4 monState)._requested_side = none ∧
    (run defaultSettings tickInp4 monState)._lead_vehicle_id = none ∧
    (run defaultSettings tickInp4 monState)._overtaken_vehicle_id = none ∧
    (run defaultSettings tickInp4 monState)._observed_execution = false ∧
    (run defaultSettings tickInp4 monState)._speed_boost_target = 0 :=
  run_lead_change_aborts defaultSettings tickInp4 monState apiA 7 8
    (by decide) (by decide) rfl (Or.inl (by decide)) (by decide) (by decide)
    (by decide)

/-- C9 witness: a Monitoring state with no tracked lead receives highlight
id 7 on an otherwise favorable tick and fully resets to Idle with reason
"Lead vehicle changed". -/
theorem run_first_lead_acquisition_witness :
    (run defaultSettings tickInp1 monNoLeadState)._state =
      OvertakeState.IDLE ∧
    (run defaultSettings tickInp1 monNoLeadState)._state_reason =
      "Lead vehicle changed" ∧
    (run defaultSettings tickInp1 monNoLeadState)._requested_side = none ∧
    (run defaultSettings tickInp1 monNoLeadState)._lead_vehicle_id = none ∧
    (run defaultSettings tickInp1 monNoLeadState)._overtaken_vehicle_id =
      none ∧
    (run defaultSettings tickInp1 monNoLeadState)._observed_execution =
      false ∧
    (run defaultSettings tickInp1 monNoLeadState)._speed_boost_target = 0 :=
  run_first_lead_acquisition_aborts defaultSettings tickInp1 monNoLeadState
    apiA 7 (by decide) (by decide) rfl (Or.inl (by decide)) (by decide)
    (by decide)

/-- C4 (amended): the lane-clearance evaluation is antitone in its front
and rear clearance parameters: decreasing them never turns a
previously-clear lane into occupied (equivalently, increasing them never
turns an occupied lane into clear).  The direction stated by the claim is
inverted: larger clearances widen the occupancy window. -/
theorem laneIsClear_antitone (set : Settings) (s : PluginState) (side : Side)
    (api : Api) (traffic : List Vehicle) (f f2 r r2 : ℚ) (d : Bool)
    (hf : f2 ≤ f) (hr : r2 ≤ r)
    (hclear : laneIsClear set s side api traffic f r d = true) :
    laneIsClear set s side api traffic f2 r2 d = true := by
  unfold laneIsClear at hclear ⊢
  cases hE : traffic.isEmpty with
  | true => simp [hE]
  | false =>
    rw [hE] at hclear
    simp only [Bool.false_eq_true, if_false] at hclear ⊢
    try dsimp only at hclear ⊢
    rw [List.all_eq_true] at hclear ⊢
    intro v hv
    have h := hclear v hv
    unfold vehicleSkipped at h ⊢
    simp only [Bool.or_eq_true, decide_eq_true_eq] at h ⊢
    have hrr : (if d = true then
          calculateSafeRearClearance set (api.speed * (36/10)) else r2) ≤
        (if d = true then
          calculateSafeRearClearance set (api.speed * (36/10)) else r) := by
      split
      · exact le_refl _
      · exact hr
    rcases h with (h|h)|(h|h)|h
    · exact Or.inl (Or.inl h)
    · exact Or.inl (Or.inr h)
    · exact Or.inr (Or.inl (Or.inl (lt_of_le_of_lt hf h)))
    · exact Or.inr (Or.inl (Or.inr (lt_of_lt_of_le h (neg_le_neg hrr))))
    · exact Or.inr (Or.inr h)

/-- C4 counterexample: a vehicle 80 m ahead in the left lane is outside
the 55 m front-clearance window (lane clear) but inside a 100 m window
(lane occupied): increasing the front clearance parameter turns a
previously-clear lane into occupied, refuting the claim's direction. -/
theorem laneIsClear_monotone_counterexample :
    laneIsClear defaultSettings (initState 0) Side.left apiA [vehFarAhead]
      55 20 false = true ∧
    laneIsClear defaultSettings (initState 0) Side.left apiA [vehFarAhead]
      100 20 false = false := by decide

/-- C4 witness: shrinking the window from (55, 20) to (40, 10) preserves
clearance of the lane containing only the vehicle 80 m ahead. -/
theorem laneIsClear_antitone_witness :
    laneIsClear defaultSettings (initState 0) Side.left apiA [vehFarAhead]
      40 10 false = true :=
  laneIsClear_antitone defaultSettings (initState 0) Side.left apiA
    [vehFarAhead] 55 40 20 10 false (by decide) (by decide) (by decide)

/-- C7 (amended): a boost request with non-positive amount is a no-op; a
positive requested amount changes the state only when it exceeds the
current target, in which case the target is raised to the amount;
otherwise the request is a no-op.  The applied amount is never changed by
a request: in particular a request for a positive amount lower than the
already-applied boost either raises the target toward it (when the
current target is lower still) or leaves the target unchanged - it never
lowers the target and never retracts applied boost synchronously. -/
theorem applySpeedBoost_characterization (set : Settings) (s : PluginState) :
    (intTrunc set.overtake_speed_boost_kph ≤ 0 → applySpeedBoost set s = s) ∧
    (0 < intTrunc set.overtake_speed_boost_kph →
      s._speed_boost_target < intTrunc set.overtake_speed_boost_kph →
      applySpeedBoost set s = { s with
        _speed_boost_target := intTrunc set.overtake_speed_boost_kph }) ∧
    (0 < intTrunc set.overtake_speed_boost_kph →
      intTrunc set.overtake_speed_boost_kph ≤ s._speed_boost_target →
      applySpeedBoost set s = s) ∧
    (applySpeedBoost set s)._speed_boost_applied = s._speed_boost_applied := by
  unfold applySpeedBoost
  dsimp only
  refine ⟨?_, ?_, ?_, ?_⟩
  · intro h
    rw [if_pos h]
  · intro h1 h2
    rw [if_neg (by omega), if_neg (by omega)]
  · intro h1 h2
    rw [if_neg (by omega), if_pos (by omega)]
  · split_ifs <;> rfl

/-- C7 counterexample: with ten units applied toward a target of fifteen,
requesting the lower positive amount five leaves the target at fifteen -
the claim that the request "sets the target to that lower amount" fails. -/
theorem applySpeedBoost_lower_request_counterexample :
    intTrunc lowBoostSettings.overtake_speed_boost_kph = 5 ∧
    (0:ℤ) < 5 ∧ (5:ℤ) < boostMidState._speed_boost_applied ∧
    (applySpeedBoost lowBoostSettings boostMidState)._speed_boost_target = 15 ∧
    ¬(applySpeedBoost lowBoostSettings boostMidState)._speed_boost_target = 5 ∧
    (applySpeedBoost lowBoostSettings boostMidState)._speed_boost_applied =
      boostMidState._speed_boost_applied := by
  decide

/-- C7 witness: on the fresh state the default request of fifteen exceeds
the zero target and raises it, leaving applied unchanged. -/
theorem applySpeedBoost_characterization_witness :
    (0:ℤ) < intTrunc defaultSettings.overtake_speed_boost_kph ∧
    (initState 0)._speed_boost_target <
      intTrunc defaultSettings.overtake_speed_boost_kph ∧
    applySpeedBoost defaultSettings (initState 0) = { initState 0 with
      _speed_boost_target := intTrunc defaultSettings.overtake_speed_boost_kph } :=
  ⟨by decide, by decide,
    (applySpeedBoost_characterization defaultSettings (initState 0)).2.1
      (by decide) (by decide)⟩

/-- C8 (amended): the indicator cooldown is measured from the most recent
actuation (trigger) of a side, not from the most recent request: a
request for a side whose indicator was last triggered less than 1.0 s
earlier is a complete no-op, and consequently when a request actuates,
any same-side request issued within 1.0 s of that actuation is a no-op -
the pair produces exactly one actuation. -/
theorem requestLaneChange_debounce (now t2 : ℚ) (side : Side)
    (s : PluginState)
    (h1 : s._last_indicator_side = some side)
    (h2 : now - s._last_indicator_time < INDICATOR_COOLDOWN_S) :
    requestLaneChange now side s = s ∧
    (∀ t1 : ℚ, ∀ s0 : PluginState,
      ¬(s0._last_indicator_side = some side ∧
        t1 - s0._last_indicator_time < INDICATOR_COOLDOWN_S) →
      t2 - t1 < INDICATOR_COOLDOWN_S →
      requestLaneChange t2 side (requestLaneChange t1 side s0) =
        requestLaneChange t1 side s0) := by
  constructor
  · unfold requestLaneChange
    rw [if_pos ⟨h1, h2⟩]
  · intro t1 s0 hno hlt
    have e1 : requestLaneChange t1 side s0 = triggerIndicator t1 side s0 := by
      unfold requestLaneChange
      rw [if_neg hno]
    rw [e1]
    unfold requestLaneChange
    rw [if_pos ⟨rfl, by
      rw [show (triggerIndicator t1 side s0)._last_indicator_time = t1
        from rfl]
      exact hlt⟩]

/-- C8 counterexample: with same-side requests at 0 s, 0.5 s and 1.2 s,
the 0.5 s request is debounced (no-op), and the 1.2 s request actuates
even though a same-side request was issued only 0.7 s earlier - refuting
the claim that a request following another request within 1.0 s is a
no-op.  Only the cooldown from the last actuation (at 0 s) matters. -/
theorem requestLaneChange_request_window_counterexample :
    reqB = reqA ∧
    (6:ℚ)/5 - 1/2 < INDICATOR_COOLDOWN_S ∧
    reqC ≠ reqB ∧
    reqC._pending_indicator_attr = some "lblinker" ∧
    reqC._last_indicator_time = 6/5 := by
  decide

/-- C8 witness: the request at 0.5 s follows the actuation at 0 s within
the cooldown and is a no-op. -/
theorem requestLaneChange_debounce_witness :
    reqA._last_indicator_side = some Side.left ∧
    (1:ℚ)/2 - reqA._last_indicator_time < INDICATOR_COOLDOWN_S ∧
    requestLaneChange (1/2) Side.left reqA = reqA :=
  ⟨by decide, by decide,
    (requestLaneChange_debounce (1/2) 0 Side.left reqA (by decide)
      (by decide)).1⟩

/-- C10: with dynamic rear mode enabled (as at both call sites in
`phaseStep`: the Monitoring target-lane check and the Clearing
original-lane check, which pass the flag implicitly as its default) the
lane-clearance evaluation ignores its base rear-clearance argument
entirely, and the effective rear clearance equals
max(configured minimum rear clearance, ego speed in m/s x configured rear
time gap) - the speed passed in km/h is divided back by 3.6. -/
theorem laneIsClear_dynamic_rear (set : Settings) (s : PluginState)
    (side : Side) (api : Api) (traffic : List Vehicle) (f r r2 : ℚ) :
    laneIsClear set s side api traffic f r true =
      laneIsClear set s side api traffic f r2 true ∧
    laneIsClear set s side api traffic f r true =
      laneIsClear set s side api traffic f
        (max set.lane_clear_rear_m (api.speed * set.rear_time_gap_s)) false ∧
    calculateSafeRearClearance set (api.speed * (36/10)) =
      max set.lane_clear_rear_m (api.speed * set.rear_time_gap_s) := by
  have hc : calculateSafeRearClearance set (api.speed * (36/10)) =
      max set.lane_clear_rear_m (api.speed * set.rear_time_gap_s) := by
    unfold calculateSafeRearClearance
    rw [mul_div_cancel_right₀ _ (by norm_num : ((36:ℚ)/10) ≠ 0)]
  have h2 : laneIsClear set s side api traffic f r true =
      laneIsClear set s side api traffic f
        (calculateSafeRearClearance set (api.speed * (36/10))) false := rfl
  exact ⟨rfl, h2.trans (by rw [hc]), hc⟩

theorem leadUpdate_overtakenInv (now : ℚ) (vh : Option ℤ) (s : PluginState)
    (h : overtakenOnlyActive s) :
    overtakenOnlyActive (leadUpdate now vh s) := by
  intro hd
  rw [leadUpdate_state] at hd
  rw [leadUpdate_ovt]
  exact h hd

theorem phaseStep_overtakenInv (set : Settings) (now : ℚ) (lane : String)
    (api : Api) (traffic : List Vehicle) (el : Bool) (rs : String)
    (s : PluginState) (h : overtakenOnlyActive s) :
    overtakenOnlyActive (phaseStep set now lane api traffic el rs s) := by
  unfold phaseStep overtakenOnlyActive
  cases hst : s._state
  all_goals dsimp only
  all_goals repeat' split
  all_goals intro hd
  all_goals try simp only [hst, setPhase_state, setPhase_ovt, setReason_state,
    setReason_ovt, requestLaneChange_state, requestLaneChange_ovt,
    updateSpeedAdjustments_state, updateSpeedAdjustments_ovt,
    applySpeedBoost_state, applySpeedBoost_ovt, resetState_state,
    resetState_ovt] at hd ⊢
  all_goals first
    | rfl
    | exact absurd hd (by decide)
    | exact h (Or.inl hst)
    | exact h (Or.inr hst)

theorem run_overtakenInv (set : Settings) (inp : RunInput) (s : PluginState)
    (h : overtakenOnlyActive s) : overtakenOnlyActive (run set inp s) := by
  obtain ⟨p, pa, pr, lb, rb, a0, e0, t0, h1⟩ := runUpdates_shape set inp.now s
  unfold run
  dsimp only
  rw [h1]
  cases hapi2 : inp.api with
  | none =>
    split
    · intro hd
      simp
    · split
      · split
        · intro hd
          simp
        · intro hd
          simp only [setReason_state] at hd
          rw [setReason_ovt]
          exact h hd
      · intro hd
        simp
  | some api =>
    split
    · intro hd
      simp
    · split
      · split
        · intro hd
          simp
        · intro hd
          simp only [setReason_state] at hd
          rw [setReason_ovt]
          exact h hd
      · dsimp only
        split
        · intro hd
          simp
        · intro hd
          exact phaseStep_overtakenInv set inp.now inp.lane_status api
            inp.traffic _ _
            (leadUpdate inp.now inp.vehicle_highlights (withVectors api
              { s with
                _pass_side := p
                _pending_indicator_attr := pa
                _pending_indicator_release := pr
                controller_lblinker := lb
                controller_rblinker := rb
                _speed_boost_applied := a0
                _active_speed_event := e0
                _active_speed_event_started := t0 }))
            (leadUpdate_overtakenInv inp.now inp.vehicle_highlights _
              (fun hd2 => h hd2)) hd

theorem onTakeover_overtakenInv (now : ℚ) (s : PluginState)
    (h : overtakenOnlyActive s) : overtakenOnlyActive (onTakeover now s) := by
  unfold onTakeover
  split
  · intro hd
    simp
  · exact h

theorem initState_overtakenInv (t0 : ℚ) : overtakenOnlyActive (initState t0) := by
  intro hd
  rfl

/-- C5 (amended): in every reachable runtime state the overtaken-vehicle
identifier is non-null only while the phase is RequestingOut, ChangingOut,
Clearing, RequestingReturn or Returning (the id is captured at the
transition from Monitoring into RequestingOut, so it is already set
during RequestingOut and ChangingOut, not only from Clearing onward), and
every full reset clears it to null. -/
theorem overtaken_id_only_in_maneuver (set : Settings) (s : PluginState)
    (h : Reach set s) (now : ℚ) (reason : String) (s2 : PluginState) :
    (s._overtaken_vehicle_id ≠ none →
      s._state = OvertakeState.REQUESTING_OUT ∨
      s._state = OvertakeState.CHANGING_OUT ∨
      s._state = OvertakeState.CLEARING ∨
      s._state = OvertakeState.REQUESTING_RETURN ∨
      s._state = OvertakeState.RETURNING) ∧
    (resetState now reason s2)._overtaken_vehicle_id = none := by
  refine ⟨?_, resetState_ovt now reason s2⟩
  have hinv : overtakenOnlyActive s := by
    induction h with
    | init t0 => exact initState_overtakenInv t0
    | step inp hR ih => exact run_overtakenInv _ _ _ ih
    | takeover now2 hR ih => exact onTakeover_overtakenInv _ _ ih
  intro hne
  cases hst : s._state
  case IDLE => exact absurd (hinv (Or.inl hst)) hne
  case MONITORING => exact absurd (hinv (Or.inr hst)) hne
  case REQUESTING_OUT => exact Or.inl rfl
  case CHANGING_OUT => exact Or.inr (Or.inl rfl)
  case CLEARING => exact Or.inr (Or.inr (Or.inl rfl))
  case REQUESTING_RETURN => exact Or.inr (Or.inr (Or.inr (Or.inl rfl)))
  case RETURNING => exact Or.inr (Or.inr (Or.inr (Or.inr rfl)))

/-- C5 counterexample: after two favorable ticks from the initialized
state the controller reaches RequestingOut with the overtaken-vehicle
identifier already set to 7, refuting the claim that the identifier is
non-null only while in Clearing, RequestingReturn or Returning. -/
theorem overtaken_id_in_requesting_out_counterexample :
    Reach defaultSettings reachState2 ∧
    reachState2._state = OvertakeState.REQUESTING_OUT ∧
    reachState2._overtaken_vehicle_id = some 7 :=
  ⟨Reach.step tickInp2 (Reach.step tickInp1 (Reach.init 0)),
    by decide, by decide⟩

/-- C5 witness: the amended invariant instantiated at the reachable state
after two ticks, and a concrete reset clearing the identifier. -/
theorem overtaken_id_only_in_maneuver_witness :
    (reachState2._overtaken_vehicle_id ≠ none →
      reachState2._state = OvertakeState.REQUESTING_OUT ∨
      reachState2._state = OvertakeState.CHANGING_OUT ∨
      reachState2._state = OvertakeState.CLEARING ∨
      reachState2._state = OvertakeState.REQUESTING_RETURN ∨
      reachState2._state = OvertakeState.RETURNING) ∧
    (resetState 3 "Driver takeover" (initState 0))._overtaken_vehicle_id =
      none :=
  overtaken_id_only_in_maneuver defaultSettings reachState2
    (Reach.step tickInp2 (Reach.step tickInp1 (Reach.init 0)))
    3 "Driver takeover" (initState 0)

theorem finish_cancel_app (s : PluginState) :
    (finishSpeedAdjustment s true)._speed_boost_applied =
      s._speed_boost_applied := by
  unfold finishSpeedAdjustment
  cases s._active_speed_event <;> rfl

theorem finish_false_inc (s : PluginState)
    (h : s._active_speed_event = some SpeedEvent.increment_speed) :
    (finishSpeedAdjustment s false)._speed_boost_applied =
      s._speed_boost_applied + 1 := by
  unfold finishSpeedAdjustment
  rw [h]
  exact rfl

theorem finish_false_dec (s : PluginState)
    (h : s._active_speed_event = some SpeedEvent.decrement_speed) :
    (finishSpeedAdjustment s false)._speed_boost_applied =
      max 0 (s._speed_boost_applied - 1) := by
  unfold finishSpeedAdjustment
  rw [h]
  exact rfl

theorem boostInv_congr (set : Settings) {s t : PluginState}
    (h : boostInv set s)
    (ha : t._speed_boost_applied = s._speed_boost_applied)
    (ht : t._speed_boost_target = s._speed_boost_target) : boostInv set t := by
  unfold boostInv at h ⊢
  rw [ha, ht]
  exact h

theorem boostInv_update (set : Settings) (now : ℚ) (s : PluginState)
    (h : boostInv set s) : boostInv set (updateSpeedAdjustments now s) := by
  unfold updateSpeedAdjustments
  cases hE : s._active_speed_event with
  | none =>
    exact boostInv_congr set h (startPulseIfPending_app now s)
      (startPulseIfPending_tgt now s)
  | some e =>
    dsimp only
    cases e with
    | increment_speed =>
      rw [if_pos rfl]
      by_cases hp : s._speed_boost_target - s._speed_boost_applied > 0
      · rw [if_pos hp, if_neg (by decide : ¬((1:ℤ) = 0 ∨ (1:ℤ) ≠ 1))]
        split
        · exact h
        · refine boostInv_congr set ?_ (startPulseIfPending_app now _)
            (startPulseIfPending_tgt now _)
          obtain ⟨h1, h2, h3, h4, h5⟩ := h
          unfold boostInv
          rw [finish_false_inc s hE, finishSpeedAdjustment_tgt]
          exact ⟨by omega, by omega, h3, h4, Or.inl (by omega)⟩
      · rw [if_neg hp]
        by_cases hq : s._speed_boost_target - s._speed_boost_applied < 0
        · rw [if_pos hq,
            if_pos (by decide : ((-1:ℤ) = 0 ∨ (-1:ℤ) ≠ 1))]
          exact boostInv_congr set h
            (by rw [startPulseIfPending_app, finish_cancel_app])
            (by rw [startPulseIfPending_tgt, finishSpeedAdjustment_tgt])
        · rw [if_neg hq, if_pos (Or.inl rfl : ((0:ℤ) = 0 ∨ (0:ℤ) ≠ 1))]
          exact boostInv_congr set h
            (by rw [startPulseIfPending_app, finish_cancel_app])
            (by rw [startPulseIfPending_tgt, finishSpeedAdjustment_tgt])
    | decrement_speed =>
      rw [if_neg (by decide :
        ¬(SpeedEvent.decrement_speed = SpeedEvent.increment_speed))]
      by_cases hp : s._speed_boost_target - s._speed_boost_applied > 0
      · rw [if_pos hp,
          if_pos (by decide : ((1:ℤ) = 0 ∨ (1:ℤ) ≠ -1))]
        exact boostInv_congr set h
          (by rw [startPulseIfPending_app, finish_cancel_app])
          (by rw [startPulseIfPending_tgt, finishSpeedAdjustment_tgt])
      · rw [if_neg hp]
        by_cases hq : s._speed_boost_target - s._speed_boost_applied < 0
        · rw [if_pos hq, if_neg (by decide : ¬((-1:ℤ) = 0 ∨ (-1:ℤ) ≠ -1))]
          split
          · exact h
          · refine boostInv_congr set ?_ (startPulseIfPending_app now _)
              (startPulseIfPending_tgt now _)
            obtain ⟨h1, h2, h3, h4, h5⟩ := h
            have ht0 : s._speed_boost_target = 0 := by omega
            unfold boostInv
            rw [finish_false_dec s hE, finishSpeedAdjustment_tgt,
              max_eq_right (by omega : (0:ℤ) ≤ s._speed_boost_applied - 1)]
            exact ⟨by omega, by omega, h3, h4, Or.inr ht0⟩
        · rw [if_neg hq, if_pos (Or.inl rfl : ((0:ℤ) = 0 ∨ (0:ℤ) ≠ -1))]
          exact boostInv_congr set h
            (by rw [startPulseIfPending_app, finish_cancel_app])
            (by rw [startPulseIfPending_tgt, finishSpeedAdjustment_tgt])

theorem boostInv_apply (set : Settings) (s : PluginState)
    (h : boostInv set s) : boostInv set (applySpeedBoost set s) := by
  unfold applySpeedBoost
  dsimp only
  split
  · exact h
  · split
    · exact h
    · rename_i hpos hlt
      obtain ⟨h1, h2, h3, h4, h5⟩ := h
      have hmax : max 0 (intTrunc set.overtake_speed_boost_kph) =
          intTrunc set.overtake_speed_boost_kph := max_eq_right (by omega)
      unfold boostInv
      dsimp only
      rw [hmax] at h2
      exact ⟨h1, by omega, by omega, le_max_right 0 _, Or.inl (by omega)⟩

theorem boostInv_remove (set : Settings) (s : PluginState)
    (h : boostInv set s) : boostInv set (removeSpeedBoost s) := by
  obtain ⟨h1, h2, h3, h4, h5⟩ := h
  refine ⟨?_, ?_, ?_, ?_, Or.inr (removeSpeedBoost_tgt s)⟩
  · rw [removeSpeedBoost_app]
    exact h1
  · rw [removeSpeedBoost_app]
    exact h2
  · rw [removeSpeedBoost_tgt]
  · rw [removeSpeedBoost_tgt]
    exact le_max_left 0 _

theorem boostInv_reset (set : Settings) (now : ℚ) (reason : String)
    (s : PluginState) (h : boostInv set s) :
    boostInv set (resetState now reason s) := by
  unfold resetState
  dsimp only
  exact boostInv_update set now _ (boostInv_remove set _
    (boostInv_congr set h (by simp) (by simp)))

theorem boostInv_monitoring_comp (set : Settings) (now : ℚ)
    (s : PluginState) (h : boostInv set s) :
    boostInv set (updateSpeedAdjustments now (applySpeedBoost set
      { s with
        _state := OvertakeState.MONITORING
        _original_side := getOppositeSide s._pass_side
        _overtaken_vehicle_id := s._lead_vehicle_id })) :=
  boostInv_update set now _ (boostInv_apply set _
    (boostInv_congr set h rfl rfl))

theorem phaseStep_boostInv (set : Settings) (now : ℚ) (lane : String)
    (api : Api) (traffic : List Vehicle) (el : Bool) (rs : String)
    (s : PluginState) (h : boostInv set s) :
    boostInv set (phaseStep set now lane api traffic el rs s) := by
  unfold phaseStep
  cases hst : s._state
  all_goals dsimp only
  all_goals repeat' split
  all_goals first
    | exact h
    | exact boostInv_reset set now _ _ h
    | exact boostInv_reset set now _ _ (boostInv_remove set s h)
    | (refine boostInv_congr set h ?_ ?_ <;> simp
       done)
    | (refine boostInv_congr set
        (boostInv_monitoring_comp set now s h) ?_ ?_ <;> simp
       done)
    | (refine boostInv_reset set now _ _ ?_
       refine boostInv_congr set h ?_ ?_ <;> simp
       done)

theorem run_boostInv (set : Settings) (inp : RunInput) (s : PluginState)
    (h : boostInv set s) : boostInv set (run set inp s) := by
  have hru : boostInv set (runUpdates set inp.now s) := by
    unfold runUpdates
    exact boostInv_update set inp.now _
      (boostInv_congr set h (by simp) (by simp))
  unfold run
  dsimp only
  cases hapi2 : inp.api with
  | none =>
    split
    · exact boostInv_congr set
        (boostInv_reset set inp.now "Disabled" _ hru) (by simp) (by simp)
    · split
      · split
        · exact boostInv_congr set
            (boostInv_reset set inp.now "Waiting for Map/ACC" _ hru)
            (by simp) (by simp)
        · exact boostInv_congr set hru (by simp) (by simp)
      · exact boostInv_congr set
          (boostInv_reset set inp.now "Telemetry unavailable" _ hru)
          (by simp) (by simp)
  | some api =>
    split
    · exact boostInv_congr set
        (boostInv_reset set inp.now "Disabled" _ hru) (by simp) (by simp)
    · split
      · split
        · exact boostInv_congr set
            (boostInv_reset set inp.now "Waiting for Map/ACC" _ hru)
            (by simp) (by simp)
        · exact boostInv_congr set hru (by simp) (by simp)
      · dsimp only
        split
        · exact boostInv_congr set
            (boostInv_reset set inp.now "Lead vehicle changed" _
              (@boostInv_congr set (runUpdates set inp.now s)
                (leadUpdate inp.now inp.vehicle_highlights
                  (withVectors api (runUpdates set inp.now s)))
                hru (by simp) (by simp)))
            (by simp) (by simp)
        · exact boostInv_congr set
            (phaseStep_boostInv set inp.now inp.lane_status api inp.traffic
              (checkStartConditions set (speedKph api)
                (effectiveSpeedLimit set api) inp.lead_distance
                inp.lane_status inp.road_type
                inp.next_intersection_distance).1
              (checkStartConditions set (speedKph api)
                (effectiveSpeedLimit set api) inp.lead_distance
                inp.lane_status inp.road_type
                inp.next_intersection_distance).2
              (leadUpdate inp.now inp.vehicle_highlights
                (withVectors api (runUpdates set inp.now s)))
              (@boostInv_congr set (runUpdates set inp.now s)
                (leadUpdate inp.now inp.vehicle_highlights
                  (withVectors api (runUpdates set inp.now s)))
                hru (by simp) (by simp)))
            (by simp) (by simp)

theorem onTakeover_boostInv (set : Settings) (now : ℚ) (s : PluginState)
    (h : boostInv set s) : boostInv set (onTakeover now s) := by
  unfold onTakeover
  split
  · exact boostInv_reset set now _ _ h
  · exact h

theorem initState_boostInv (set : Settings) (t0 : ℚ) :
    boostInv set (initState t0) :=
  ⟨le_refl 0, le_max_left 0 _, le_refl 0, le_max_left 0 _, Or.inl (le_refl 0)⟩

/-- C6 counterexample: after four ticks from the initialized state (lead
acquired, RequestingOut with boost target 15, one increment pulse
completed, then a lead change forcing a full reset that zeroes the
target), the controller is in a reachable state whose applied boost (1)
strictly exceeds its boost target (0), refuting the claim that the
applied amount never exceeds the target. -/
theorem boost_applied_exceeds_target_counterexample :
    Reach defaultSettings reachState4 ∧
    reachState4._speed_boost_target < reachState4._speed_boost_applied :=
  ⟨Reach.step tickInp4 (Reach.step tickInp3 (Reach.step tickInp2
    (Reach.step tickInp1 (Reach.init 0)))), by decide⟩

/-- C6 (amended): in every reachable state the applied boost is
non-negative, bounded by the truncated configured boost, and exceeds the
target only when the target is zero (i.e. after a reset zeroed the
target, during downward convergence); and each completed (non-cancelled)
speed pulse changes the applied amount by exactly one unit — a cancelled
pulse leaves it unchanged, a completed increment pulse adds one, and a
completed decrement pulse subtracts one whenever at least one unit is
applied. -/
theorem boost_bounds_and_unit_pulse (set : Settings) (s : PluginState)
    (h : Reach set s) :
    (0 ≤ s._speed_boost_applied ∧
      s._speed_boost_applied ≤
        max 0 (intTrunc set.overtake_speed_boost_kph) ∧
      (s._speed_boost_applied ≤ s._speed_boost_target ∨
        s._speed_boost_target = 0)) ∧
    (∀ u : PluginState, ∀ e : SpeedEvent,
      u._active_speed_event = some e →
      (finishSpeedAdjustment u true)._speed_boost_applied =
          u._speed_boost_applied ∧
      (e = SpeedEvent.increment_speed →
        (finishSpeedAdjustment u false)._speed_boost_applied =
          u._speed_boost_applied + 1) ∧
      (e = SpeedEvent.decrement_speed → 1 ≤ u._speed_boost_applied →
        (finishSpeedAdjustment u false)._speed_boost_applied =
          u._speed_boost_applied - 1)) := by
  have hinv : boostInv set s := by
    induction h with
    | init t0 => exact initState_boostInv set t0
    | step inp hr ih => exact run_boostInv set inp _ ih
    | takeover now hr ih => exact onTakeover_boostInv set now _ ih
  obtain ⟨h1, h2, _, _, h5⟩ := hinv
  refine ⟨⟨h1, h2, h5⟩, ?_⟩
  intro u e he
  refine ⟨finish_cancel_app u, ?_, ?_⟩
  · intro hinc
    exact finish_false_inc u (hinc ▸ he)
  · intro hdec hone
    rw [finish_false_dec u (hdec ▸ he)]
    omega

/-- C6 witness: the amended invariant instantiated at the reachable
four-tick state (applied 1, target 0), together with the unit-pulse
property applied to that state's finished pulses. -/
theorem boost_bounds_and_unit_pulse_witness :
    (0 ≤ reachState4._speed_boost_applied ∧
      reachState4._speed_boost_applied ≤
        max 0 (intTrunc defaultSettings.overtake_speed_boost_kph) ∧
      (reachState4._speed_boost_applied ≤ reachState4._speed_boost_target ∨
        reachState4._speed_boost_target = 0)) ∧
    (∀ u : PluginState, ∀ e : SpeedEvent,
      u._active_speed_event = some e →
      (finishSpeedAdjustment u true)._speed_boost_applied =
          u._speed_boost_applied ∧
      (e = SpeedEvent.increment_speed →
        (finishSpeedAdjustment u false)._speed_boost_applied =
          u._speed_boost_applied + 1) ∧
      (e = SpeedEvent.decrement_speed → 1 ≤ u._speed_boost_applied →
        (finishSpeedAdjustment u false)._speed_boost_applied =
          u._speed_boost_applied - 1)) :=
  boost_bounds_and_unit_pulse defaultSettings reachState4
    (Reach.step tickInp4 (Reach.step tickInp3 (Reach.step tickInp2
      (Reach.step tickInp1 (Reach.init 0)))))

end AutoOvertake
